import Mathlib

/-!
Verification of the hybrid detection-and-scoring engine of the
ai-security-scanner backend (`backend/app/services/`).

The Python sources are shallowly embedded: machine floats in the scorer
are modelled as exact rationals (`ℚ`), Python's `round` (banker's
rounding, round-half-to-even) is modelled by `pyRound`, Python strings
by `String` / `List Char`, parsed JSON values by an inductive `Json`
type, and Python exceptions by `Except String`.
-/

namespace Scanner

/-- A vulnerability finding, as produced by the detectors and consumed by
`calculate_risk_score` (model of `VulnerabilityFinding`; only the fields
the scorer and the claims inspect are retained). -/
structure Finding where
  category : String
  severity : String
  confidence : ℚ
  evidence : List (List Char) := []
  description : String := ""
  attack_scenario : String := ""
  remediation : String := ""
  line_number : Option Nat := none
  detection_method : String := ""
  deriving Repr, DecidableEq

/-! ## Scorer (`scorer.py`) -/

/-- `CATEGORY_WEIGHTS` lookup with the `.get(category, 10)` default used in
`calculate_risk_score` (scorer.py lines 22-35, 113). -/
def categoryWeight (cat : String) : ℚ :=
  if cat = "LLM01:2025" then 35
  else if cat = "LLM02:2025" then 30
  else if cat = "LLM06:2025" then 20
  else if cat = "LLM05:2025" then 15
  else if cat = "LLM04:2025" then 25
  else if cat = "LLM07:2025" then 22
  else if cat = "LLM03:2025" then 20
  else if cat = "LLM08:2025" then 18
  else if cat = "LLM09:2025" then 15
  else if cat = "LLM10:2025" then 12
  else 10

/-- `SEVERITY_MULTIPLIERS` lookup with the `.get(severity, 0.5)` default used
in `calculate_risk_score` (scorer.py lines 38-44, 114). -/
def severityMult (sev : String) : ℚ :=
  if sev = "Critical" then 1
  else if sev = "High" then 1
  else if sev = "Medium" then 3/5
  else if sev = "Low" then 3/10
  else if sev = "None" then 0
  else 1/2

/-- FR6 confidence bucketing (scorer.py lines 104-111). -/
def confBucket (c : ℚ) : ℚ :=
  if 9/10 ≤ c then 1
  else if 7/10 ≤ c then 9/10
  else if 1/2 ≤ c then 7/10
  else 1/2

/-- Python 3 `round(x)`: round half to even (banker's rounding), here on
exact rationals. -/
def pyRound (q : ℚ) : ℤ :=
  if q - ⌊q⌋ < 1/2 then ⌊q⌋
  else if 1/2 < q - ⌊q⌋ then ⌊q⌋ + 1
  else if ⌊q⌋ % 2 = 0 then ⌊q⌋ else ⌊q⌋ + 1

/-- Python `round(x, 2)`: banker's rounding to two decimal places. -/
def round2 (q : ℚ) : ℚ := (pyRound (q * 100) : ℚ) / 100

/-- Per-finding contribution
`base_weight * severity_mult * conf_factor` (scorer.py line 116). -/
def contribution (f : Finding) : ℚ :=
  categoryWeight f.category * severityMult f.severity * confBucket f.confidence

/-- `_get_risk_level` (scorer.py lines 55-59): first threshold of
`_THRESHOLDS` not exceeding the score, final fallback `"Low"`. -/
def get_risk_level (score : ℤ) : String :=
  if 76 ≤ score then "Critical"
  else if 51 ≤ score then "High"
  else if 26 ≤ score then "Medium"
  else if 0 ≤ score then "Low"
  else "Low"

/-- Count of findings with the given severity (the `severity_counts`
accumulation of scorer.py lines 94-96, 121-122). -/
def countSev (sev : String) (fs : List Finding) : Nat :=
  (fs.filter (fun f => f.severity = sev)).length

/-- One step of the `breakdown` accumulation (scorer.py line 119):
`breakdown[category] = round(breakdown.get(category, 0.0) + contribution, 2)`,
with Python-dict insertion-order semantics (update in place, else append). -/
def updateBreakdown (bd : List (String × ℚ)) (cat : String) (c : ℚ) :
    List (String × ℚ) :=
  let newVal := round2 (((bd.lookup cat).getD 0) + c)
  if (bd.lookup cat).isSome then
    bd.map (fun kv => if kv.1 = cat then (kv.1, newVal) else kv)
  else
    bd ++ [(cat, newVal)]

/-- The `breakdown` dict after the main loop of `calculate_risk_score`. -/
def buildBreakdown (fs : List Finding) : List (String × ℚ) :=
  fs.foldl (fun bd f => updateBreakdown bd f.category (contribution f)) []

/-- The summary string of `calculate_risk_score` (scorer.py lines 127-145)
for a non-empty findings list. -/
def summaryFor (fs : List Finding) (bd : List (String × ℚ)) : String :=
  let ch := countSev "Critical" fs + countSev "High" fs
  if 0 < ch then
    toString ch ++ " critical/high severity " ++
      (if ch = 1 then "vulnerability" else "vulnerabilities") ++
      " detected across " ++ toString bd.length ++ " OWASP " ++
      (if bd.length = 1 then "category" else "categories") ++
      ". Immediate remediation required."
  else if 0 < countSev "Medium" fs then
    toString (countSev "Medium" fs) ++ " medium severity " ++
      (if countSev "Medium" fs = 1 then "vulnerability" else "vulnerabilities") ++
      " detected. Review and remediate before production deployment."
  else
    toString fs.length ++ " low severity " ++
      (if fs.length = 1 then "finding" else "findings") ++
      " detected. Consider addressing as part of security hardening."

/-- The result record of `calculate_risk_score`. -/
structure RiskAssessment where
  risk_score : ℤ
  risk_level : String
  breakdown_by_category : List (String × ℚ)
  total_findings : Nat
  critical_severity_count : Nat
  high_severity_count : Nat
  medium_severity_count : Nat
  low_severity_count : Nat
  summary : String
  deriving Repr, DecidableEq

/-- `calculate_risk_score` (scorer.py lines 62-157). -/
def calculate_risk_score (fs : List Finding) : RiskAssessment :=
  if fs.isEmpty then
    { risk_score := 0
      risk_level := "Low"
      breakdown_by_category := []
      total_findings := 0
      critical_severity_count := 0
      high_severity_count := 0
      medium_severity_count := 0
      low_severity_count := 0
      summary := "No vulnerabilities detected. Configuration appears secure." }
  else
    let total := (fs.map contribution).sum
    let score := min (pyRound total) 100
    let bd := buildBreakdown fs
    { risk_score := score
      risk_level := get_risk_level score
      breakdown_by_category := bd
      total_findings := fs.length
      critical_severity_count := countSev "Critical" fs
      high_severity_count := countSev "High" fs
      medium_severity_count := countSev "Medium" fs
      low_severity_count := countSev "Low" fs
      summary := summaryFor fs bd }

/-! ## Line-number lookup (`parser.py`, `get_line_number`) and the
semantic-analyzer orchestrator (`detector_llm.py`, `run_all_llm_scans`) -/

/-- Index of the first occurrence of `pat` in a character list
(`str.find` semantics, `None` for absence). -/
def firstMatchPos (pat : List Char) : List Char → Option Nat
  | [] => if pat = [] then some 0 else none
  | c :: cs =>
    if pat.isPrefixOf (c :: cs) then some 0
    else (firstMatchPos pat cs).map (· + 1)

/-- Python `content.find(sub, start)` (absence modelled as `none`). -/
def pyFind (content pat : List Char) (start : Nat) : Option Nat :=
  (firstMatchPos pat (content.drop start)).map (· + start)

/-- `get_line_number` (parser.py lines 79-93): 1-indexed line of the first
occurrence of `sub` in `content` at or after `start`; `none` when `sub`
is empty or absent. -/
def get_line_number (content sub : String) (start : Nat) : Option Nat :=
  if sub = "" then none
  else
    match pyFind content.toList sub.toList start with
    | none => none
    | some idx => some ((content.toList.take idx).count '\n' + 1)

/-- A structured verdict from one LLM category scan (the dict that
`vertex_ai.analyze_with_llm` returns, tagged with category and detection
method by the `scan_*_llm` wrappers). -/
structure Judgment where
  found : Bool
  severity : String := ""
  confidence : ℚ := 0
  evidence : List String := []
  description : String := ""
  category : String := ""
  detection_method : String := ""
  line_number : Option Nat := none
  deriving Repr, DecidableEq

/-- Python truthiness of the `line_number` field
(`not result.get("line_number")`): `None` and `0` are falsy. -/
def lnFalsy : Option Nat → Bool
  | none => true
  | some n => n = 0

/-- The FR7 best-effort line-number backfill applied to a positive
judgment (detector_llm.py lines 527-534). -/
def backfill (raw : String) (j : Judgment) : Judgment :=
  if lnFalsy j.line_number ∧ j.evidence ≠ [] then
    match j.evidence.head? with
    | some e =>
      match get_line_number raw e 0 with
      | some n => if n ≠ 0 then { j with line_number := some n } else j
      | none => j
    | none => j
  else j

/-- One step of the result loop of `run_all_llm_scans`
(detector_llm.py lines 515-536): an exceptional outcome is logged and
skipped, a `found=false` judgment is dropped, a `found=true` judgment is
backfilled and appended. -/
def llmScanStep (raw : String) (acc : List Judgment)
    (r : Except String Judgment) : List Judgment :=
  match r with
  | .error _ => acc
  | .ok j => if j.found then acc ++ [backfill raw j] else acc

/-- `run_all_llm_scans` (detector_llm.py lines 471-541) after the ten
category calls have completed: `asyncio.gather(..., return_exceptions=True)`
delivers each call's outcome as either a judgment or a captured exception
(modelled by `Except`), and the loop reduces them to findings. -/
def run_all_llm_scans (raw : String)
    (results : List (Except String Judgment)) : List Judgment :=
  results.foldl (llmScanStep raw) []

/-! ## Parsed JSON/YAML values and the extracted profile (`parser.py`) -/

/-- A parsed Python value as produced by `json.loads` / `yaml.safe_load`:
`None`, booleans, numbers, strings, lists, and string-keyed dicts
(dicts modelled as insertion-ordered association lists with unique keys). -/
inductive Json where
  | null
  | bool (b : Bool)
  | num (q : ℚ)
  | str (s : String)
  | arr (elems : List Json)
  | obj (entries : List (String × Json))

/-- Substring containment, Python's `needle in haystack` for strings. -/
def strContains (haystack needle : String) : Bool :=
  decide (needle.toList <:+: haystack.toList)

/-- Python `str.lower()` (simple per-character mapping). -/
def pyLower (s : String) : String := String.mk (s.toList.map Char.toLower)

/-- Python `str.upper()` (simple per-character mapping). -/
def pyUpper (s : String) : String := String.mk (s.toList.map Char.toUpper)

/-- Python `str.strip()`: remove leading and trailing whitespace. -/
def pyStrip (s : String) : String :=
  String.mk
    (((s.toList.dropWhile Char.isWhitespace).reverse.dropWhile
        Char.isWhitespace).reverse)

/-- Python `str.endswith(suffix)`. -/
def pyEndsWith (s suffix : String) : Bool :=
  decide (suffix.toList <:+ s.toList)

/-- Python `str.startswith(prefix)`. -/
def pyStartsWith (s pre : String) : Bool := pre.toList.isPrefixOf s.toList

/-- Python `sep.join(parts)`. -/
def pyJoin (sep : String) : List String → String
  | [] => ""
  | [a] => a
  | a :: rest => a ++ sep ++ pyJoin sep rest

/-- Python truthiness of a parsed value. -/
def jTruthy : Json → Bool
  | .null => false
  | .bool b => b
  | .num q => q ≠ 0
  | .str s => s ≠ ""
  | .arr xs => !xs.isEmpty
  | .obj es => !es.isEmpty

/-- Python `==` on hashable (dict-key) values, including the numeric
equality of booleans and numbers (`True == 1`). -/
def jEqKey : Json → Json → Bool
  | .null, .null => true
  | .bool a, .bool b => a = b
  | .num a, .num b => a = b
  | .str a, .str b => a = b
  | .bool a, .num b => (if a then (1 : ℚ) else 0) = b
  | .num a, .bool b => a = (if b then (1 : ℚ) else 0)
  | _, _ => false

/-- Python `value == "k"` for a string `k` (used by `in` on lists). -/
def jStrEq (k : String) : Json → Bool
  | .str s => s = k
  | _ => false

/-- `container.get(key, default)`: dict lookup with default; calling
`.get` on a non-dict raises `AttributeError`. -/
def pyGet (container : Json) (k : String) (dflt : Json) : Except String Json :=
  match container with
  | .obj es => .ok ((es.lookup k).getD dflt)
  | _ => .error "AttributeError: object has no attribute get"

/-- Python `key in container` for a string key: dict-key membership,
substring test on strings, `==`-membership on lists; `in` on any other
value raises `TypeError`. -/
def pyContains (container : Json) (k : String) : Except String Bool :=
  match container with
  | .obj es => .ok ((es.lookup k).isSome)
  | .str s => .ok (strContains s k)
  | .arr xs => .ok (xs.any (jStrEq k))
  | _ => .error "TypeError: argument is not iterable"

/-- Python `container[key]` for a string key on the container shapes that
arise here (`dict` succeeds when the key is present; string/list indexing
by a string raises `TypeError`). -/
def pyIndex (container : Json) (k : String) : Except String Json :=
  match container with
  | .obj es =>
    match es.lookup k with
    | some v => .ok v
    | none => .error "KeyError"
  | .str _ => .error "TypeError: string indices must be integers"
  | .arr _ => .error "TypeError: list indices must be integers"
  | _ => .error "TypeError: object is not subscriptable"

/-- Python `for x in container`: lists iterate elements, strings iterate
one-character strings, dicts iterate keys, everything else raises
`TypeError`. -/
def jIter : Json → Except String (List Json)
  | .arr xs => .ok xs
  | .str s => .ok (s.toList.map (fun c => .str (String.singleton c)))
  | .obj es => .ok (es.map (fun kv => .str kv.1))
  | _ => .error "TypeError: object is not iterable"

/-- Python-dict assignment `d[k] = v` on an association list: update the
existing entry in place, else append (insertion order). -/
def updAssoc (d : List (String × Json)) (k : String) (v : Json) :
    List (String × Json) :=
  if (d.lookup k).isSome then
    d.map (fun kv => if kv.1 = k then (k, v) else kv)
  else d ++ [(k, v)]

/-- The normalized extraction result of `parse_file` (parser.py
lines 102-124): the `result` dict, with the `workflow_graph` sub-dict
flattened into its four lists. -/
structure Prof where
  system_prompt : Option String := none
  tools : List Json := []
  permissions : List Json := []
  output_handlers : List Json := []
  model_supply_chain : List (String × Json) := []
  training_ingestion : List (String × Json) := []
  rag_vector : List (String × Json) := []
  policy_misinfo : List (String × Json) := []
  resource_limits : List (String × Json) := []
  workflow_nodes : List Json := []
  workflow_edges : List Json := []
  trigger_nodes : List Json := []
  sink_nodes : List Json := []
  external_calls : List Json := []
  raw_content : String := ""

/-- The fresh `result` dict of `parse_file` for the given `content`. -/
def initProf (content : String) : Prof := { raw_content := content }

/-- Python truthiness of `result["system_prompt"]`
(`None` and `""` are falsy). -/
def spTruthy (p : Prof) : Bool := p.system_prompt.getD "" ≠ ""

/-! ## Sensitive-information rule detector (`detector_rule.py`, LLM02)

Each pre-compiled regex of detector_rule.py lines 41-48 is embedded as a
position matcher over `List Char` together with a leftmost-search
combinator, mirroring `re.search` / `re.findall` semantics (leftmost
position, greedy quantifiers, word boundaries where the pattern has
them). -/

/-- Leftmost search: try the matcher at every position, left to right
(`re.search`). -/
def searchL (m : List Char → Option (List Char)) : List Char → Option (List Char)
  | [] => m []
  | c :: cs =>
    match m (c :: cs) with
    | some r => some r
    | none => searchL m cs

/-- Boolean leftmost search for matchers that only decide a position. -/
def searchAny (f : List Char → Bool) : List Char → Bool
  | [] => f []
  | c :: cs => f (c :: cs) || searchAny f cs

/-- Boolean leftmost search threading the previous character (for
patterns with a leading word-boundary assertion). -/
def searchPrevBool (f : Option Char → List Char → Bool) :
    Option Char → List Char → Bool
  | prev, [] => f prev []
  | prev, c :: cs => f prev (c :: cs) || searchPrevBool f (some c) cs

/-- `[a-zA-Z0-9]` (the bracket class of the key patterns). -/
def isAlnumCh (c : Char) : Bool := c.isAlphanum

/-- `\w` — `[a-zA-Z0-9_]`, for `\b` word boundaries. -/
def isWordChar (c : Char) : Bool := c.isAlphanum || c = '_'

/-- `_RE_OPENAI_KEY = sk-[a-zA-Z0-9]{20,}` at one position (greedy run). -/
def matchSk (s : List Char) : Option (List Char) :=
  if "sk-".toList.isPrefixOf s then
    let run := (s.drop 3).takeWhile isAlnumCh
    if 20 ≤ run.length then some ("sk-".toList ++ run) else none
  else none

/-- `_RE_PRIVATE_KEY = pk-[a-zA-Z0-9]{20,}` at one position. -/
def matchPk (s : List Char) : Option (List Char) :=
  if "pk-".toList.isPrefixOf s then
    let run := (s.drop 3).takeWhile isAlnumCh
    if 20 ≤ run.length then some ("pk-".toList ++ run) else none
  else none

/-- `_RE_GOOGLE_KEY = AIza[a-zA-Z0-9_\-]{35}` at one position. -/
def matchGoogle (s : List Char) : Option (List Char) :=
  if "AIza".toList.isPrefixOf s then
    let run := (s.drop 4).takeWhile (fun c => isAlnumCh c || c = '_' || c = '-')
    if 35 ≤ run.length then some ("AIza".toList ++ run.take 35) else none
  else none

/-- The bracket class `[a-zA-Z0-9\-._~+/]` of `_RE_BEARER`. -/
def isBearerChar (c : Char) : Bool :=
  c.isAlphanum || c = '-' || c = '.' || c = '_' || c = '~' || c = '+' || c = '/'

/-- `_RE_BEARER = Bearer\s+[a-zA-Z0-9\-._~+/]{20,}=*` at one position. -/
def matchBearer (s : List Char) : Option (List Char) :=
  if "Bearer".toList.isPrefixOf s then
    let rest := s.drop 6
    let ws := rest.takeWhile Char.isWhitespace
    if ws.isEmpty then none
    else
      let r2 := rest.drop ws.length
      let body := r2.takeWhile isBearerChar
      if 20 ≤ body.length then
        let eqs := (r2.drop body.length).takeWhile (fun c => c = '=')
        some ("Bearer".toList ++ ws ++ body ++ eqs)
      else none
  else none

/-- One alternative `gh?_[a-zA-Z0-9]{36,}` of `_RE_GITHUB_TOKEN`. -/
def matchGhVariant (pre : String) (s : List Char) : Option (List Char) :=
  if pre.toList.isPrefixOf s then
    let run := (s.drop 4).takeWhile isAlnumCh
    if 36 ≤ run.length then some (pre.toList ++ run) else none
  else none

/-- `_RE_GITHUB_TOKEN = gh[pousr]_[a-zA-Z0-9]{36,}` at one position. -/
def matchGh (s : List Char) : Option (List Char) :=
  match matchGhVariant "ghp_" s with
  | some r => some r
  | none =>
    match matchGhVariant "gho_" s with
    | some r => some r
    | none =>
      match matchGhVariant "ghu_" s with
      | some r => some r
      | none =>
        match matchGhVariant "ghs_" s with
        | some r => some r
        | none => matchGhVariant "ghr_" s

/-- `_RE_DB_CONN = (postgresql|mysql|mongodb|redis)://[^:]+:[^@]+@`
(IGNORECASE) at one position, for one scheme alternative.  The `[^:]+`
and `[^@]+` runs are deterministic because their classes exclude the
following literal. -/
def matchDbAt (scheme : List Char) (s : List Char) : Bool :=
  decide ((s.take scheme.length).map Char.toLower = scheme) &&
  "://".toList.isPrefixOf (s.drop scheme.length) &&
  (let r := s.drop (scheme.length + 3)
   let a := r.takeWhile (fun c => c ≠ ':')
   !a.isEmpty && decide ((r.drop a.length).head? = some ':') &&
   (let r2 := r.drop (a.length + 1)
    let b := r2.takeWhile (fun c => c ≠ '@')
    !b.isEmpty && decide ((r2.drop b.length).head? = some '@')))

/-- `re.search(_RE_DB_CONN, content)` as a Boolean. -/
def dbConnFound (content : List Char) : Bool :=
  ["postgresql", "mysql", "mongodb", "redis"].any
    (fun sch => searchAny (matchDbAt sch.toList) content)

/-- Local-part class `[A-Za-z0-9._%+\-]` of `_RE_EMAIL`. -/
def emailLocalChar (c : Char) : Bool :=
  c.isAlphanum || c = '.' || c = '_' || c = '%' || c = '+' || c = '-'

/-- Domain class `[A-Za-z0-9.\-]` of `_RE_EMAIL`. -/
def emailDomainChar (c : Char) : Bool := c.isAlphanum || c = '.' || c = '-'

/-- Backtracking of the greedy domain run of `_RE_EMAIL`: inside the
maximal domain-class run `full`, find the rightmost dot followed by a
TLD of at least two letters whose end satisfies `\b`; returns the dot
index and the TLD length. -/
def emailDomSplit (full : List Char) (afterFull : Option Char) :
    Option (Nat × Nat) :=
  ((List.range full.length).filter (fun k => full.getD k ' ' = '.')).reverse.findSome?
    (fun k =>
      let a := (full.drop (k + 1)).takeWhile Char.isAlpha
      let next :=
        match (full.drop (k + 1 + a.length)).head? with
        | some c => some c
        | none => afterFull
      if decide (2 ≤ a.length) &&
          (match next with | some c => !isWordChar c | none => true)
      then some (k, a.length) else none)

/-- `_RE_EMAIL = \b[A-Za-z0-9._%+\-]+@[A-Za-z0-9.\-]+\.[A-Za-z]{2,}\b`
at one position (with the previous character for the leading `\b`);
returns the number of characters consumed. -/
def matchEmailAt (prev : Option Char) (s : List Char) : Option Nat :=
  let lo := s.takeWhile emailLocalChar
  if lo.isEmpty then none
  else
    let bOK :=
      match prev, s.head? with
      | none, some c => isWordChar c
      | some p, some c => isWordChar p != isWordChar c
      | _, none => false
    if !bOK then none
    else
      let after := s.drop lo.length
      if after.head? = some '@' then
        let r := after.drop 1
        let full := r.takeWhile emailDomainChar
        match emailDomSplit full ((r.drop full.length).head?) with
        | some (k, aLen) => some (lo.length + 1 + k + 1 + aLen)
        | none => none
      else none

/-- `re.findall(_RE_EMAIL, content)`: non-overlapping matches, left to
right, resuming after each match. -/
def scanEmails : Option Char → List Char → List (List Char)
  | _, [] => []
  | prev, c :: cs =>
    match matchEmailAt prev (c :: cs) with
    | some n =>
      ((c :: cs).take n) :: scanEmails ((c :: cs).getD (n - 1) c) (cs.drop (n - 1))
    | none => scanEmails (some c) cs
termination_by _ l => l.length
decreasing_by
  · simp only [List.length_cons, List.length_drop]
    omega
  · simp only [List.length_cons]
    omega

/-- `_RE_SSN = \b\d{3}-\d{2}-\d{4}\b` at one position. -/
def matchSSNAt (prev : Option Char) (s : List Char) : Bool :=
  (match prev with | some p => !isWordChar p | none => true) &&
  decide ((s.take 3).length = 3) && (s.take 3).all Char.isDigit &&
  decide (s.getD 3 ' ' = '-') &&
  decide (((s.drop 4).take 2).length = 2) && ((s.drop 4).take 2).all Char.isDigit &&
  decide ((s.drop 4).getD 2 ' ' = '-') &&
  decide (((s.drop 7).take 4).length = 4) && ((s.drop 7).take 4).all Char.isDigit &&
  (match (s.drop 11).head? with | some c => !isWordChar c | none => true)

/-- Substring containment on character lists (Python `needle in s`). -/
def listContains (s pat : List Char) : Bool := decide (pat <:+: s)

/-- `", ".join` on character lists. -/
def joinList (sep : List Char) : List (List Char) → List Char
  | [] => []
  | [a] => a
  | a :: rest => a ++ sep ++ joinList sep rest

/-- One credential check of detect_sensitive_info_rules (detector_rule.py
lines 223-246): search, mask to first 8 + `"..."` + last 4, emit one
Critical confidence-1.0 finding. -/
def credCheck (m : List Char → Option (List Char)) (label : String)
    (content : List Char) : List Finding :=
  match searchL m content with
  | none => []
  | some g =>
    let masked := g.take 8 ++ "...".toList ++ g.drop (g.length - 4)
    [{ category := "LLM02:2025", severity := "Critical", confidence := 1,
       evidence := [("Hardcoded " ++ label ++ ": ").toList ++ masked],
       description := "A " ++ label ++ " is hardcoded in the configuration. If this file is committed to version control or logged, the credential is compromised.",
       attack_scenario := "Attacker reads the config file (via path traversal, leaked repo, or LLM prompt leakage) and extracts the credential for API abuse.",
       remediation := "Remove the credential immediately. Rotate it. Store secrets in environment variables or a secret manager (GCP Secret Manager, AWS Secrets Manager, HashiCorp Vault).",
       detection_method := "rule_based" }]

/-- `detect_sensitive_info_rules` (detector_rule.py lines 209-308). -/
def detect_sensitive_info_rules (pd : Prof) : List Finding :=
  let content := pd.raw_content.toList
  credCheck matchSk "OpenAI API key (sk-...)" content ++
  credCheck matchGoogle "Google API key (AIza...)" content ++
  credCheck matchPk "Private key (pk-...)" content ++
  credCheck matchBearer "Bearer token" content ++
  credCheck matchGh "GitHub token (ghp_/gho_/...)" content ++
  (if dbConnFound content then
    [{ category := "LLM02:2025", severity := "Critical", confidence := 1,
       evidence := ["Database connection string with embedded username:password found".toList],
       description := "A database connection string containing credentials is present in the configuration. This exposes the database to anyone who can read the file.",
       attack_scenario := "Attacker extracts the connection string via LLM prompt leakage or config file exposure and gains direct database access.",
       remediation := "Use environment variables: DATABASE_URL=$DATABASE_URL. Never embed credentials in connection strings stored in code or config.",
       detection_method := "rule_based" }]
   else []) ++
  (let real_emails := (scanEmails none content).filter
      (fun e => !listContains e "example".toList && !listContains e "placeholder".toList)
   if !real_emails.isEmpty then
    [{ category := "LLM02:2025", severity := "Medium", confidence := 4/5,
       evidence := ["Email addresses found: ".toList ++
         joinList ", ".toList (real_emails.take 3) ++
         (if 3 < real_emails.length then "...".toList else [])],
       description := "PII (email addresses) found in the configuration. If the LLM is trained on or has access to this data, it may regurgitate it.",
       attack_scenario := "User asks the LLM to list all users you know about and the model reveals email addresses from its context.",
       remediation := "Remove PII from configuration files. Use anonymised test data. Implement output filtering to redact email patterns in responses.",
       detection_method := "rule_based" }]
   else []) ++
  (if searchPrevBool matchSSNAt none content then
    [{ category := "LLM02:2025", severity := "Critical", confidence := 9/10,
       evidence := ["Social Security Number pattern (XXX-XX-XXXX) detected".toList],
       description := "SSN-format data found in configuration — high-value PII.",
       attack_scenario := "LLM could regurgitate SSN data when prompted.",
       remediation := "Remove all SSN data. Use synthetic data for testing.",
       detection_method := "rule_based" }]
   else [])

/-! ## Workflow-shape classification (`parser.py`, `_detect_workflow_type`) -/

/-- Sequential `any(...)` over a generator whose element test may raise:
stops at the first `True` or the first exception. -/
def anyE (f : α → Except String Bool) : List α → Except String Bool
  | [] => .ok false
  | x :: xs =>
    match f x with
    | .error e => .error e
    | .ok true => .ok true
    | .ok false => anyE f xs

/-- The per-node test `n.get("type", "").startswith("n8n-")` of
`_detect_workflow_type` (parser.py line 303). -/
def n8nNodeCheck (n : Json) : Except String Bool :=
  match pyGet n "type" (.str "") with
  | .error e => .error e
  | .ok tv =>
    match tv with
    | .str s => .ok (pyStartsWith s "n8n-")
    | _ => .error "AttributeError: object has no attribute startswith"

/-- The per-node test `"data" in n and "label" in n.get("data", {})` of
`_detect_workflow_type` (parser.py line 309). -/
def flowiseNodeCheck (n : Json) : Except String Bool :=
  match pyContains n "data" with
  | .error e => .error e
  | .ok false => .ok false
  | .ok true =>
    match pyGet n "data" (.obj []) with
    | .error e => .error e
    | .ok dv => pyContains dv "label"

/-- The LangChain test
`"graphs" in data or "runnables" in data or "chain" in data.get("type", "").lower()`
of `_detect_workflow_type` (parser.py line 313). -/
def langchainCheck (kvs : List (String × Json)) : Except String Bool :=
  if (kvs.lookup "graphs").isSome ∨ (kvs.lookup "runnables").isSome then .ok true
  else
    match (kvs.lookup "type").getD (.str "") with
    | .str s => .ok (strContains (pyLower s) "chain")
    | _ => .error "AttributeError: object has no attribute lower"

/-- `_detect_workflow_type` (parser.py lines 296-316), with Python
exceptions surfaced in `Except`: the n8n branch requires top-level
`"nodes"` (a list) and `"connections"` and an early node with an
`"n8n-"`-prefixed type; the Flowise branch requires `"nodes"` (a list)
and `"edges"` and an early node with nested labeled data; then the
LangChain test; otherwise `"generic"`.  Non-dict payloads are
`"generic"` immediately. -/
def detectWorkflowType (data : Json) : Except String String :=
  match data with
  | .obj kvs =>
    let step1 : Except String Bool :=
      match kvs.lookup "nodes", kvs.lookup "connections" with
      | some (.arr ns), some _ => anyE n8nNodeCheck (ns.take 5)
      | _, _ => .ok false
    match step1 with
    | .error e => .error e
    | .ok true => .ok "n8n"
    | .ok false =>
      let step2 : Except String Bool :=
        match kvs.lookup "nodes", kvs.lookup "edges" with
        | some (.arr ns), some _ => anyE flowiseNodeCheck (ns.take 5)
        | _, _ => .ok false
      match step2 with
      | .error e => .error e
      | .ok true => .ok "flowise"
      | .ok false =>
        match langchainCheck kvs with
        | .error e => .error e
        | .ok true => .ok "langchain"
        | .ok false => .ok "generic"
  | _ => .ok "generic"

/-- Statement helper: a node over which the n8n per-node test cannot
raise (a dict whose `"type"` value, if present, is a string). -/
def n8nNodeOK (n : Json) : Bool :=
  match n with
  | .obj es =>
    match (es.lookup "type").getD (.str "") with
    | .str _ => true
    | _ => false
  | _ => false

/-- Statement helper: the n8n per-node test's pure value. -/
def n8nNodePrefixed (n : Json) : Bool :=
  match n with
  | .obj es =>
    match (es.lookup "type").getD (.str "") with
    | .str s => pyStartsWith s "n8n-"
    | _ => false
  | _ => false

/-- Statement helper: a node over which the Flowise per-node test cannot
raise (a dict whose `"data"` value, if present, is a dict). -/
def flowiseNodeOK (n : Json) : Bool :=
  match n with
  | .obj es =>
    match es.lookup "data" with
    | none => true
    | some (.obj _) => true
    | some _ => false
  | _ => false

/-- Statement helper: the Flowise per-node test's pure value (nested
labeled node data). -/
def flowiseNodeLabeled (n : Json) : Bool :=
  match n with
  | .obj es =>
    match es.lookup "data" with
    | some (.obj des) => (des.lookup "label").isSome
    | _ => false
  | _ => false

/-- Statement helper: the LangChain test's pure value. -/
def langchainHit (kvs : List (String × Json)) : Bool :=
  (kvs.lookup "graphs").isSome || (kvs.lookup "runnables").isSome ||
  (match (kvs.lookup "type").getD (.str "") with
   | .str s => strContains (pyLower s) "chain"
   | _ => false)

/-- Statement helper: payloads on which classification cannot raise —
early node entries are well-shaped and the top-level `"type"` value, if
any, is a string. -/
def wfPayload (kvs : List (String × Json)) : Bool :=
  (match kvs.lookup "nodes" with
   | some (.arr ns) => (ns.take 5).all (fun n => n8nNodeOK n && flowiseNodeOK n)
   | _ => true) &&
  (match (kvs.lookup "type").getD (.str "") with
   | .str _ => true
   | _ => false)

/-! ## Generic extraction (`parser.py`, `_extract_from_dict` and
`_extract_new_categories`)

Python `set` literals are modelled as lists in source order; only
membership is ever tested, except for `PROMPT_KEYS`, whose iteration
order Python leaves unspecified — the embedding fixes source order,
which is irrelevant to the claims (every write is guarded). -/

/-- `PROMPT_KEYS` (parser.py lines 33-36). -/
def PROMPT_KEYS : List String :=
  ["system_prompt", "system", "prompt", "instruction", "instructions",
   "systemPrompt", "system_message", "systemMessage", "preamble"]

/-- `TOOL_KEYS` (parser.py lines 37-41). -/
def TOOL_KEYS : List String :=
  ["tools", "functions", "extensions", "capabilities", "actions", "skills",
   "nodes"]

/-- `PERMISSION_KEYS` (parser.py lines 42-45). -/
def PERMISSION_KEYS : List String :=
  ["permissions", "scopes", "access", "roles", "grants", "allow", "allowlist"]

/-- `OUTPUT_HANDLER_KEYS` (parser.py lines 46-49). -/
def OUTPUT_HANDLER_KEYS : List String :=
  ["output", "output_handler", "outputHandler", "response_handler",
   "responseHandler", "post_process", "postProcess", "callback"]

/-- `_SUPPLY_CHAIN_KEYS` (parser.py lines 52-56). -/
def SUPPLY_CHAIN_KEYS : List String :=
  ["model", "plugins", "dependencies", "adapters", "allow_remote_code",
   "allowRemoteCode", "checksum_verification", "checksumVerification",
   "sbom", "base_model", "baseModel"]

/-- `_TRAINING_INGESTION_KEYS` (parser.py lines 57-62). -/
def TRAINING_INGESTION_KEYS : List String :=
  ["pipeline", "data_sources", "dataSources", "auto_ingest", "autoIngest",
   "auto_ingest_to_training_set", "human_review_required",
   "humanReviewRequired", "data_validation", "dataValidation", "training",
   "finetune", "fine_tune", "fine_tuning", "controls"]

/-- `_RAG_VECTOR_KEYS` (parser.py lines 63-68). -/
def RAG_VECTOR_KEYS : List String :=
  ["rag", "vector_store", "vectorStore", "namespace_isolation",
   "namespaceIsolation", "allow_cross_namespace", "allowCrossNamespace",
   "auto_index_external_urls", "sanitize_documents", "retrieval", "retrieve",
   "embeddings", "knowledge_base", "knowledgeBase"]

/-- `_RESOURCE_LIMIT_KEYS` (parser.py lines 69-75). -/
def RESOURCE_LIMIT_KEYS : List String :=
  ["rate_limit", "rateLimit", "rate_limit_per_minute", "quota", "daily_quota",
   "dailyQuota", "max_tokens", "max_output_tokens", "maxOutputTokens",
   "max_input_size", "maxInputSize", "timeout", "timeout_seconds",
   "timeoutSeconds", "retries", "retry", "max_retries", "maxRetries",
   "max_concurrent_requests", "maxConcurrentRequests", "throttle"]

/-- The `policy_misinfo` key set of `_extract_new_categories`
(parser.py line 505). -/
def POLICY_MISINFO_KEYS : List String :=
  ["misinformation", "disclaimer", "citation_policy"]

/-- Pass 1 of `_extract_from_dict` (parser.py lines 461-464): first
prompt-key whose string value has non-blank content seeds
`system_prompt`, guarded by `if not result["system_prompt"]`. -/
def promptPass (es : List (String × Json)) (p : Prof) : Prof :=
  PROMPT_KEYS.foldl (fun p k =>
    match es.lookup k with
    | some (.str v) =>
      if pyStrip v ≠ "" then
        (if spTruthy p then p else { p with system_prompt := some v })
      else p
    | _ => p) p

/-- Pass 2 of `_extract_from_dict` (parser.py lines 467-469). -/
def toolsPass (es : List (String × Json)) (p : Prof) : Prof :=
  TOOL_KEYS.foldl (fun p k =>
    match es.lookup k with
    | some (.arr xs) => { p with tools := p.tools ++ xs }
    | _ => p) p

/-- Pass 3 of `_extract_from_dict` (parser.py lines 472-474). -/
def permsPass (es : List (String × Json)) (p : Prof) : Prof :=
  PERMISSION_KEYS.foldl (fun p k =>
    match es.lookup k with
    | some (.arr xs) => { p with permissions := p.permissions ++ xs }
    | _ => p) p

/-- Pass 4 of `_extract_from_dict` (parser.py lines 477-484). -/
def outputPass (es : List (String × Json)) (p : Prof) : Prof :=
  OUTPUT_HANDLER_KEYS.foldl (fun p k =>
    match es.lookup k with
    | some (.obj oes) =>
      { p with output_handlers := p.output_handlers ++ [.obj oes] }
    | some (.arr xs) => { p with output_handlers := p.output_handlers ++ xs }
    | _ => p) p

/-- Values that `_extract_from_dict` recurses into
(`isinstance(v, (dict, list))`). -/
def isDictOrList : Json → Bool
  | .arr _ => true
  | .obj _ => true
  | _ => false

mutual

/-- `_extract_from_dict` (parser.py lines 455-493): the four key passes
on a dict level, then recursion into dict/list values; a list recurses
into every item; other values are left alone. -/
def extract_from_dict : Json → Prof → Prof
  | .obj es, p =>
    extractValues es (outputPass es (permsPass es (toolsPass es (promptPass es p))))
  | .arr xs, p => extractList xs p
  | _, p => p

/-- The value-recursion loop of `_extract_from_dict`
(parser.py lines 487-489). -/
def extractValues : List (String × Json) → Prof → Prof
  | [], p => p
  | (_, v) :: rest, p =>
    extractValues rest (if isDictOrList v then extract_from_dict v p else p)

/-- The list branch of `_extract_from_dict` (parser.py lines 491-493). -/
def extractList : List Json → Prof → Prof
  | [], p => p
  | x :: rest, p => extractList rest (extract_from_dict x p)

end

/-- One category of `_extract_new_categories` (parser.py lines 509-517):
collect this level's entries whose key is in the category's key set and
merge them into the category dict. -/
def applyCat (field : List (String × Json)) (keys : List String)
    (es : List (String × Json)) : List (String × Json) :=
  let found := es.filter (fun kv => keys.contains kv.1)
  if found.isEmpty then field
  else found.foldl (fun d kv => updAssoc d kv.1 kv.2) field

mutual

/-- `_extract_new_categories` (parser.py lines 496-526). -/
def extract_new_categories : Json → Prof → Prof
  | .obj es, p =>
    let p1 :=
      { p with
        model_supply_chain := applyCat p.model_supply_chain SUPPLY_CHAIN_KEYS es
        training_ingestion :=
          applyCat p.training_ingestion TRAINING_INGESTION_KEYS es
        rag_vector := applyCat p.rag_vector RAG_VECTOR_KEYS es
        policy_misinfo := applyCat p.policy_misinfo POLICY_MISINFO_KEYS es
        resource_limits := applyCat p.resource_limits RESOURCE_LIMIT_KEYS es }
    newCatValues es p1
  | .arr xs, p => newCatList xs p
  | _, p => p

/-- The value-recursion loop of `_extract_new_categories`
(parser.py lines 520-522). -/
def newCatValues : List (String × Json) → Prof → Prof
  | [], p => p
  | (_, v) :: rest, p =>
    newCatValues rest (if isDictOrList v then extract_new_categories v p else p)

/-- The list branch of `_extract_new_categories`
(parser.py lines 524-526). -/
def newCatList : List Json → Prof → Prof
  | [], p => p
  | x :: rest, p => newCatList rest (extract_new_categories x p)

end

/-! ## Free-text and source-code extraction (`_parse_txt`, `_parse_python`) -/

/-- The `scan_keys` table of `_parse_txt` (parser.py lines 222-228). -/
def TXT_SCAN_KEYS : List (String × String) :=
  [("SYSTEM", "system_prompt"), ("PROMPT", "system_prompt"),
   ("TOOLS", "tools"), ("PERMISSIONS", "permissions"),
   ("OUTPUT", "output_handlers")]

/-- Python `str.splitlines()` for `\n` and `\r\n` line endings (the
forms that occur in the scanned artifacts): split on `\n`, strip one
trailing `\r` from each part, and drop a final empty part. -/
def pySplitlines (s : String) : List String :=
  let rec go : List Char → List Char → List (List Char)
    | [], acc => [acc.reverse]
    | '\n' :: rest, acc => acc.reverse :: go rest []
    | c :: rest, acc => go rest (c :: acc)
  let parts := (go s.toList []).map (fun l =>
    if l.getLast? = some '\r' then l.dropLast else l)
  let parts := parts.map String.mk
  if parts.getLast? = some "" then parts.dropLast else parts

/-- Drop the final character (`stripped[:-1]`). -/
def pyDropLast (s : String) : String := String.mk s.toList.dropLast

/-- `_parse_txt` (parser.py lines 212-252): scan for ALL-CAPS section
headers; buffered text before each header is flushed into the previous
section (only `system_prompt` is stored); no header at all makes the
whole content the system prompt. -/
def parseTxtStep (st : Prof × List String × Option String) (line : String) :
    Prof × List String × Option String :=
  let stripped := pyUpper (pyStrip line)
  if pyEndsWith stripped ":" ∧
      (TXT_SCAN_KEYS.lookup (pyDropLast stripped)).isSome then
    let p2 :=
      if st.2.2 = some "system_prompt" ∧ ¬st.2.1.isEmpty then
        { st.1 with system_prompt := some (pyJoin "\n" st.2.1) }
      else st.1
    (p2, ([], TXT_SCAN_KEYS.lookup (pyDropLast stripped)))
  else (st.1, (st.2.1 ++ [line], st.2.2))

def parse_txt (content : String) (p : Prof) : Prof :=
  let fin := (pySplitlines content).foldl parseTxtStep (p, ([], none))
  if fin.2.2 = some "system_prompt" ∧ ¬fin.2.1.isEmpty then
    { fin.1 with system_prompt := some (pyJoin "\n" fin.2.1) }
  else if fin.2.2 = none then { fin.1 with system_prompt := some content }
  else fin.1

/-- The odd segments of a `str.split` by a triple-quote delimiter: the
captured groups of `re.findall` with a non-greedy body between two
delimiters (matches are the 1st-2nd, 3rd-4th, ... delimiter pairs). -/
def tripleSegs : List String → List String
  | _ :: b :: rest => if rest.isEmpty then [] else b :: tripleSegs rest
  | _ => []

/-- Split a character list on a three-character delimiter, left to right,
non-overlapping (Python `str.split`). -/
def splitOn3 (c1 c2 c3 : Char) : List Char → List Char → List (List Char)
  | a :: b :: c :: rest, acc =>
    if a = c1 ∧ b = c2 ∧ c = c3 then
      acc.reverse :: splitOn3 c1 c2 c3 rest []
    else splitOn3 c1 c2 c3 (b :: c :: rest) (a :: acc)
  | l, acc => [acc.reverse ++ l]
termination_by l _ => l.length
decreasing_by
  · simp only [List.length_cons]
    omega
  · simp only [List.length_cons]
    omega

/-- `content.split(quote * 3)` as strings. -/
def pySplitOnTriple (q : Char) (s : String) : List String :=
  (splitOn3 q q q s.toList []).map String.mk

/-- Python `max(strings, key=len)` (first maximal element), `none` on an
empty list. -/
def longestFirst : List String → Option String
  | [] => none
  | x :: xs =>
    some (xs.foldl (fun best y => if best.length < y.length then y else best) x)

/-- The regex `def\s+([a-zA-Z0-9_]+)\s*\(` of `_parse_python` at one
position; returns the captured name and the number of characters the
match consumes. -/
def matchDefAt : List Char → Option (String × Nat)
  | 'd' :: 'e' :: 'f' :: rest =>
    let ws := rest.takeWhile Char.isWhitespace
    if ws.isEmpty then none
    else
      let r2 := rest.drop ws.length
      let name := r2.takeWhile isWordChar
      if name.isEmpty then none
      else
        let r3 := r2.drop name.length
        let ws2 := r3.takeWhile Char.isWhitespace
        match (r3.drop ws2.length).head? with
        | some '(' => some (String.mk name,
            3 + ws.length + name.length + ws2.length + 1)
        | _ => none
  | _ => none

/-- `re.findall` for the `def`-pattern: non-overlapping, left to right. -/
def scanDefs : List Char → List String
  | [] => []
  | c :: cs =>
    match matchDefAt (c :: cs) with
    | some (name, n) => name :: scanDefs (cs.drop (n - 1))
    | none => scanDefs cs
termination_by l => l.length
decreasing_by
  · simp only [List.length_cons, List.length_drop]
    omega
  · simp only [List.length_cons]
    omega

/-- The dangerous-pattern table of `_parse_python`
(parser.py lines 278-283). -/
def PY_DANGEROUS : List (String × String) :=
  [("os.system", "System command execution"),
   ("subprocess.", "Subprocess execution"),
   ("eval(", "Dynamic code evaluation"),
   ("exec(", "Dynamic code execution")]

/-- `_parse_python` (parser.py lines 255-290): longest triple-quoted
string over 50 characters becomes the prompt, `def` names (minus the
infra exclusion set) become tools, dangerous call patterns append to
`output_handlers`. -/
def parse_python (content : String) (p : Prof) : Prof :=
  let triple_double := tripleSegs (pySplitOnTriple '"' content)
  let triple_single := tripleSegs (pySplitOnTriple '\'' content)
  let all_strings := triple_double ++ triple_single
  let p1 :=
    match longestFirst all_strings with
    | some longest =>
      if 50 < longest.length then { p with system_prompt := some longest }
      else p
    | none => p
  let funcs := scanDefs content.toList
  let tools := (funcs.filter
      (fun f => ¬(f = "__init__" ∨ f = "main" ∨ f = "setup"))).map
    (fun f => Json.obj [("name", .str f), ("type", .str "function")])
  let p2 := if tools.isEmpty then p1 else { p1 with tools := p1.tools ++ tools }
  PY_DANGEROUS.foldl (fun p kv =>
    if strContains content kv.1 then
      { p with output_handlers := p.output_handlers ++
        [Json.obj [("type", .str "dangerous_pattern"), ("pattern", .str kv.1),
          ("description", .str kv.2)]] }
    else p) p2

/-! ## Workflow-specific extraction (`_parse_n8n`, `_parse_flowise`,
`_parse_langchain`) and `parse_file`

Python's in-place mutation with exceptions is modelled by returning the
(possibly partially updated) profile together with an optional
exception: an error aborts the remaining statements but keeps the
mutations made so far, exactly as a raised exception does before
`parse_file`'s blanket handler catches it. -/

/-- A profile state paired with a pending exception. -/
abbrev PState := Prof × Option String

/-- Error-short-circuiting fold over a list, state preserved at the
point of failure. -/
def foldE (f : σ → α → σ × Option String) : σ → List α → σ × Option String
  | st, [] => (st, none)
  | st, x :: xs =>
    match f st x with
    | (st2, none) => foldE f st2 xs
    | (st2, some e) => (st2, some e)

/-- `node_map[name] = id` with Python dict-key equality. -/
def updMap (m : List (Json × Json)) (k v : Json) : List (Json × Json) :=
  if (m.find? (fun kv => jEqKey kv.1 k)).isSome then
    m.map (fun kv => if jEqKey kv.1 k then (kv.1, v) else kv)
  else m ++ [(k, v)]

/-- `node_map.get(key, default)` with Python dict-key equality. -/
def lookupMap (m : List (Json × Json)) (k : Json) : Option Json :=
  (m.find? (fun kv => jEqKey kv.1 k)).map (fun kv => kv.2)

/-- One iteration of the node loop of `_parse_n8n`
(parser.py lines 324-371), threading the profile and `node_map`. -/
def processN8nNode (st : Prof × List (Json × Json)) (n : Json) :
    (Prof × List (Json × Json)) × Option String :=
  let p := st.1
  let nmap := st.2
  match pyGet n "id" .null with
  | .error e => (st, some e)
  | .ok idv =>
  match pyGet n "name" .null with
  | .error e => (st, some e)
  | .ok namev0 =>
  let node_id := if jTruthy idv then idv else namev0
  match pyGet n "type" (.str "unknown") with
  | .error e => (st, some e)
  | .ok typev =>
  match pyGet n "name" (.str "Unnamed Node") with
  | .error e => (st, some e)
  | .ok namev =>
  let trigRes : Except String Bool :=
    match pyContains typev "Trigger" with
    | .error e => .error e
    | .ok true => .ok true
    | .ok false =>
      match typev with
      | .str sv => .ok (strContains (pyLower sv) "webhook")
      | _ => .error "AttributeError: object has no attribute lower"
  match trigRes with
  | .error e => (st, some e)
  | .ok is_trigger =>
  let sinkRes : Except String Bool :=
    match typev with
    | .str sv =>
      .ok (strContains (pyLower sv) "http" || strContains (pyLower sv) "db" ||
        strContains (pyLower sv) "file")
    | _ => .error "AttributeError: object has no attribute lower"
  match sinkRes with
  | .error e => (st, some e)
  | .ok is_sink =>
  match pyGet n "credentials" (.obj []) with
  | .error e => (st, some e)
  | .ok creds =>
  let toolsRes : Except String Prof :=
    if jTruthy creds then
      match creds with
      | .obj ces =>
        .ok { p with tools := p.tools ++ [Json.obj [("name", namev),
          ("type", typev),
          ("credentials", Json.arr (ces.map (fun kv => .str kv.1)))]] }
      | _ => .error "AttributeError: object has no attribute keys"
    else .ok p
  match toolsRes with
  | .error e => (st, some e)
  | .ok p1 =>
  match pyGet n "parameters" (.obj []) with
  | .error e => ((p1, nmap), some e)
  | .ok params =>
  let urlRes : Except String Prof :=
    match pyContains params "url" with
    | .error e => .error e
    | .ok false => .ok p1
    | .ok true =>
      match params with
      | .obj pes =>
        .ok { p1 with external_calls := p1.external_calls ++
          [Json.obj [("url", (pes.lookup "url").getD .null),
            ("method", (pes.lookup "requestMethod").getD (.str "GET")),
            ("node", namev)]] }
      | .str _ => .error "TypeError: string indices must be integers"
      | .arr _ => .error "TypeError: list indices must be integers"
      | _ => .error "TypeError: object is not subscriptable"
  match urlRes with
  | .error e => ((p1, nmap), some e)
  | .ok p2 =>
  let promptRes : Except String Prof :=
    match params with
    | .obj pes =>
      .ok (pes.foldl (fun p kv =>
        match kv.2 with
        | .str v =>
          if strContains (pyLower kv.1) "prompt" ∧ 20 < v.length then
            (if spTruthy p then p else { p with system_prompt := some v })
          else p
        | _ => p) p2)
    | _ => .error "AttributeError: object has no attribute items"
  match promptRes with
  | .error e => ((p2, nmap), some e)
  | .ok p3 =>
  let credKeysRes : Except String (List Json) :=
    match creds with
    | .obj ces => .ok (ces.map (fun kv => .str kv.1))
    | _ => .error "AttributeError: object has no attribute keys"
  match credKeysRes with
  | .error e => ((p3, nmap), some e)
  | .ok credKeys =>
  let node_entry := Json.obj [("id", node_id), ("name", namev),
    ("type", typev), ("is_trigger", .bool is_trigger),
    ("is_sink", .bool is_sink), ("parameters", params),
    ("credentials", Json.arr credKeys)]
  let p4 := { p3 with workflow_nodes := p3.workflow_nodes ++ [node_entry] }
  match namev with
  | .arr _ => ((p4, nmap), some "TypeError: unhashable type")
  | .obj _ => ((p4, nmap), some "TypeError: unhashable type")
  | _ =>
    let nmap2 := updMap nmap namev node_id
    let p5 := if is_trigger then
        { p4 with trigger_nodes := p4.trigger_nodes ++ [node_id] }
      else p4
    let p6 := if is_sink then
        { p5 with sink_nodes := p5.sink_nodes ++ [node_id] }
      else p5
    ((p6, nmap2), none)

/-- The innermost link loop of the edge extraction of `_parse_n8n`
(parser.py lines 380-389). -/
def processN8nLink (nmap : List (Json × Json)) (source_id : Json)
    (output_type : String) (p : Prof) (link : Json) : Prof × Option String :=
  match pyGet link "node" .null with
  | .error e => (p, some e)
  | .ok target_name =>
    match target_name with
    | .arr _ => (p, some "TypeError: unhashable type")
    | .obj _ => (p, some "TypeError: unhashable type")
    | _ =>
      let target_id := (lookupMap nmap target_name).getD target_name
      ({ p with workflow_edges := p.workflow_edges ++
        [Json.obj [("source", source_id), ("target", target_id),
          ("type", .str output_type)]] }, none)

/-- One `connections` entry of `_parse_n8n` (parser.py lines 376-389). -/
def processN8nConn (nmap : List (Json × Json)) (p : Prof)
    (conn : String × Json) : Prof × Option String :=
  let source_id := (lookupMap nmap (.str conn.1)).getD (.str conn.1)
  match conn.2 with
  | .obj otes =>
    foldE (fun p ot =>
      match jIter ot.2 with
      | .error e => (p, some e)
      | .ok groups =>
        foldE (fun p grp =>
          match jIter grp with
          | .error e => (p, some e)
          | .ok links => foldE (processN8nLink nmap source_id ot.1) p links)
          p groups) p otes
  | _ => (p, some "AttributeError: object has no attribute items")

/-- `_parse_n8n` (parser.py lines 318-389). -/
def parse_n8n (data : Json) (p : Prof) : PState :=
  match pyGet data "nodes" (.arr []) with
  | .error e => (p, some e)
  | .ok nodesv =>
  match jIter nodesv with
  | .error e => (p, some e)
  | .ok nodes =>
  match foldE processN8nNode (p, []) nodes with
  | ((p1, _), some e) => (p1, some e)
  | ((p1, nmap), none) =>
    match pyGet data "connections" (.obj []) with
    | .error e => (p1, some e)
    | .ok connv =>
      match connv with
      | .obj ces => foldE (processN8nConn nmap) p1 ces
      | _ => (p1, some "AttributeError: object has no attribute items")

/-- One iteration of the node loop of `_parse_flowise`
(parser.py lines 397-426). -/
def processFlowiseNode (p : Prof) (n : Json) : Prof × Option String :=
  match pyGet n "data" (.obj []) with
  | .error e => (p, some e)
  | .ok node_data =>
  match pyGet n "id" .null with
  | .error e => (p, some e)
  | .ok node_id =>
  match pyGet node_data "label" (.str "Unknown") with
  | .error e => (p, some e)
  | .ok label =>
  match pyGet node_data "name" (.str "unknown") with
  | .error e => (p, some e)
  | .ok node_type =>
  match pyGet node_data "inputs" (.obj []) with
  | .error e => (p, some e)
  | .ok inputs =>
  match pyGet node_data "credential" .null with
  | .error e => (p, some e)
  | .ok creds =>
  let trigRes : Except String Bool :=
    match node_type with
    | .str sv =>
      .ok (strContains (pyLower sv) "input" || strContains (pyLower sv) "webhook")
    | _ => .error "AttributeError: object has no attribute lower"
  match trigRes with
  | .error e => (p, some e)
  | .ok is_trigger =>
  let sinkRes : Except String Bool :=
    match node_type with
    | .str sv =>
      .ok (strContains (pyLower sv) "output" ||
        strContains (pyLower sv) "database")
    | _ => .error "AttributeError: object has no attribute lower"
  match sinkRes with
  | .error e => (p, some e)
  | .ok is_sink =>
  let tmplRes : Except String Prof :=
    match pyContains inputs "template" with
    | .error e => .error e
    | .ok false => .ok p
    | .ok true =>
      match inputs with
      | .obj ies =>
        match (ies.lookup "template").getD .null with
        | .str tv =>
          .ok (if spTruthy p then p else { p with system_prompt := some tv })
        | _ => .ok p
      | .str _ => .error "TypeError: string indices must be integers"
      | .arr _ => .error "TypeError: list indices must be integers"
      | _ => .error "TypeError: object is not subscriptable"
  match tmplRes with
  | .error e => (p, some e)
  | .ok p1 =>
  let node_entry := Json.obj [("id", node_id), ("name", label),
    ("type", node_type), ("is_trigger", .bool is_trigger),
    ("is_sink", .bool is_sink), ("parameters", inputs),
    ("credentials", Json.arr (if jTruthy creds then [creds] else []))]
  let p2 := { p1 with workflow_nodes := p1.workflow_nodes ++ [node_entry] }
  let p3 := if is_trigger then
      { p2 with trigger_nodes := p2.trigger_nodes ++ [node_id] }
    else p2
  let p4 := if is_sink then
      { p3 with sink_nodes := p3.sink_nodes ++ [node_id] }
    else p3
  (p4, none)

/-- `_parse_flowise` (parser.py lines 392-433). -/
def parse_flowise (data : Json) (p : Prof) : PState :=
  match pyGet data "nodes" (.arr []) with
  | .error e => (p, some e)
  | .ok nodesv =>
  match jIter nodesv with
  | .error e => (p, some e)
  | .ok nodes =>
  match foldE processFlowiseNode p nodes with
  | (p1, some e) => (p1, some e)
  | (p1, none) =>
    match pyGet data "edges" (.arr []) with
    | .error e => (p1, some e)
    | .ok edgesv =>
    match jIter edgesv with
    | .error e => (p1, some e)
    | .ok edges =>
      foldE (fun p e =>
        match pyGet e "source" .null with
        | .error err => (p, some err)
        | .ok srcv =>
        match pyGet e "target" .null with
        | .error err => (p, some err)
        | .ok tgtv =>
        match pyGet e "type" (.str "default") with
        | .error err => (p, some err)
        | .ok tv =>
          ({ p with workflow_edges := p.workflow_edges ++
            [Json.obj [("source", srcv), ("target", tgtv), ("type", tv)]] },
           none)) p1 edges

/-- `_parse_langchain` (parser.py lines 435-448). -/
def parse_langchain (data : Json) (p : Prof) : PState :=
  let orStep : Except String Json :=
    match pyGet data "nodes" .null with
    | .error e => .error e
    | .ok a =>
      if jTruthy a then .ok a
      else
        match pyGet data "graphs" .null with
        | .error e => .error e
        | .ok b =>
          if jTruthy b then .ok b
          else
            match pyGet data "chains" .null with
            | .error e => .error e
            | .ok c => .ok (if jTruthy c then c else .arr [])
  match orStep with
  | .error e => (p, some e)
  | .ok nodes =>
    match nodes with
    | .obj nes =>
      foldE (fun p kv =>
        match pyGet kv.2 "type" (.str "chain") with
        | .error e => (p, some e)
        | .ok tv =>
          ({ p with workflow_nodes := p.workflow_nodes ++
            [Json.obj [("id", .str kv.1), ("type", tv), ("config", kv.2)]] },
           none)) p nes
    | .arr ns =>
      foldE (fun p n =>
        match pyGet n "id" (.str "unknown") with
        | .error e => (p, some e)
        | .ok idv =>
        match pyGet n "type" (.str "chain") with
        | .error e => (p, some e)
        | .ok tv =>
          ({ p with workflow_nodes := p.workflow_nodes ++
            [Json.obj [("id", idv), ("type", tv), ("config", n)]] },
           none)) p ns
    | _ => (p, none)

/-- `_parse_json` (parser.py lines 161-187): decode (decode failure is
caught locally and extraction is skipped), classify the workflow shape,
run the shape-specific extractor, then always the generic extraction
over the dict-normalized payload. -/
def parse_json (jsonLoads : String → Except String Json) (content : String)
    (p : Prof) : PState :=
  match jsonLoads content with
  | .error _ => (p, none)
  | .ok data =>
    match detectWorkflowType data with
    | .error e => (p, some e)
    | .ok wt =>
      let step : PState :=
        if wt = "n8n" then parse_n8n data p
        else if wt = "flowise" then parse_flowise data p
        else if wt = "langchain" then parse_langchain data p
        else (p, none)
      match step with
      | (p1, some e) => (p1, some e)
      | (p1, none) =>
        let data2 :=
          match data with
          | .obj es => Json.obj es
          | .arr xs => Json.obj [("items", Json.arr xs)]
          | _ => Json.obj []
        (extract_new_categories data2 (extract_from_dict data2 p1), none)

/-- `_parse_yaml` (parser.py lines 190-209). -/
def parse_yaml (yamlLoad : String → Except String Json) (content : String)
    (p : Prof) : PState :=
  match yamlLoad content with
  | .error _ => (p, none)
  | .ok data =>
    match data with
    | .obj _ =>
      match detectWorkflowType data with
      | .error e => (p, some e)
      | .ok wt =>
        let step : PState := if wt = "langchain" then parse_langchain data p
          else (p, none)
        match step with
        | (p1, some e) => (p1, some e)
        | (p1, none) =>
          (extract_new_categories data (extract_from_dict data p1), none)
    | .arr xs =>
      (xs.foldl (fun p item =>
        match item with
        | .obj _ => extract_new_categories item (extract_from_dict item p)
        | _ => p) p, none)
    | _ => (p, none)

/-- The high-stakes keywords of `_extract_policy_misinfo_from_text`
(parser.py line 534). -/
def POLICY_HIGH_STAKES : List String :=
  ["medical", "diagnosis", "treatment", "legal info", "financial advice",
   "tax advice"]

/-- The bad-practice phrases of `_extract_policy_misinfo_from_text`
(parser.py line 535). -/
def POLICY_BAD_PRACTICES : List String :=
  ["answer confidently", "always answer", "never say you don\x27t know",
   "ignore disclaimers"]

/-- `_extract_policy_misinfo_from_text` (parser.py lines 529-548). -/
def extract_policy_misinfo_from_text (content : String) :
    List (String × Json) :=
  let cl := pyLower content
  let hs := POLICY_HIGH_STAKES.filter (fun w => strContains cl w)
  let bp := POLICY_BAD_PRACTICES.filter (fun w => strContains cl w)
  (if hs.isEmpty then [] else
    [("high_stakes_topics", Json.arr (hs.map Json.str))]) ++
  (if bp.isEmpty then [] else
    [("risky_instructions", Json.arr (bp.map Json.str))])

/-- `parse_file` (parser.py lines 96-154): fresh result, one
format-specific parser chosen by declared type (any exception from it is
caught and logged — including the `NameError` for the `js`/`ts` branch,
whose `_parse_js` helper is never defined in parser.py), then the
policy-misinfo fallback over the raw content.  `json.loads` and
`yaml.safe_load` are external, passed in as arbitrary decoders. -/
def parse_file (jsonLoads yamlLoad : String → Except String Json)
    (content file_type : String) : Prof :=
  let p0 := initProf content
  let step : PState :=
    if file_type = "json" then parse_json jsonLoads content p0
    else if file_type = "yaml" then parse_yaml yamlLoad content p0
    else if file_type = "txt" then (parse_txt content p0, none)
    else if file_type = "py" then (parse_python content p0, none)
    else if file_type = "js" ∨ file_type = "ts" then
      (p0, some "NameError: name _parse_js is not defined")
    else (p0, none)
  let p1 := step.1
  if p1.policy_misinfo.isEmpty then
    { p1 with policy_misinfo := extract_policy_misinfo_from_text content }
  else p1

/-! ## Misinformation rule detector (`detector_rule.py`, LLM09) -/

/-- `_MISINFO_HIGH_STAKES` (detector_rule.py lines 85-89). -/
def MISINFO_HIGH_STAKES : List String :=
  ["medical", "medicine", "doctor", "diagnosis", "medication", "dosage",
   "symptom", "legal", "lawyer", "attorney", "legal advice",
   "legal compliance", "financial", "investment", "trading", "tax advice"]

/-- `_MISINFO_BAD_PRACTICES` (detector_rule.py lines 90-95). -/
def MISINFO_BAD_PRACTICES : List String :=
  ["provide definitive", "definitive answer", "do not mention uncertainty",
   "even if you are not sure", "make the best guess", "make a guess",
   "do not cite", "don\x27t cite", "no citation", "no sources",
   "answer confidently", "be confident", "answer even if"]

/-- `detect_misinformation_rules` (detector_rule.py lines 894-1008).

The function body refers to a variable `raw` (lines 916, 939, 960, 992,
inside `get_line_number(raw, ...)`) that is **never defined in this
function** — unlike every other detector in the file, it defines
`raw_lower` but no `raw`, and no module-level `raw` exists.  Python
therefore raises `NameError` the moment any of the four finding-emitting
branches is taken; only the no-signal paths return normally.  The
embedding models this faithfully. -/
def detect_misinformation_rules (pd : Prof) : Except String (List Finding) :=
  let sp := pd.system_prompt.getD ""
  let spLower := pyLower sp
  let rawLower := pyLower pd.raw_content
  let combined := spLower ++ " " ++ rawLower
  let domains_found := MISINFO_HIGH_STAKES.filter (fun d => strContains combined d)
  let bad_practices := MISINFO_BAD_PRACTICES.filter (fun b => strContains combined b)
  if ¬domains_found.isEmpty ∧ ¬bad_practices.isEmpty then
    -- line 916: `get_line_number(raw, domains_found[0])`
    .error "NameError: name raw is not defined"
  else if ¬domains_found.isEmpty ∧ pd.rag_vector.isEmpty then
    -- line 939: `get_line_number(raw, domains_found[0])`
    .error "NameError: name raw is not defined"
  else if ¬bad_practices.isEmpty then
    -- line 960: `get_line_number(raw, bad_practices[0])`
    .error "NameError: name raw is not defined"
  else if ¬pd.policy_misinfo.isEmpty then
    -- branch 2 (lines 977-1006): `findings` is necessarily empty here
    let t1 := jTruthy ((pd.policy_misinfo.lookup "high_stakes_domains").getD .null)
    let t2 := jTruthy ((pd.policy_misinfo.lookup "no_citation_required").getD .null)
    let t3 := jTruthy ((pd.policy_misinfo.lookup "forced_confidence").getD .null)
    let signals := (if t1 then 1 else 0) + (if t2 then 1 else 0) +
      (if t3 then 1 else 0)
    if 2 ≤ signals then
      -- line 992: `get_line_number(raw, "high_stakes_domains")`
      .error "NameError: name raw is not defined"
    else .ok []
  else .ok []

end Scanner

namespace Scanner

theorem Json.myInduction (motive : Json → Prop)
    (hnull : motive .null)
    (hbool : ∀ b, motive (.bool b))
    (hnum : ∀ q, motive (.num q))
    (hstr : ∀ s, motive (.str s))
    (harr : ∀ xs, (∀ x ∈ xs, motive x) → motive (.arr xs))
    (hobj : ∀ es, (∀ kv ∈ es, motive kv.2) → motive (.obj es)) :
    ∀ j, motive j
  | .null => hnull
  | .bool b => hbool b
  | .num q => hnum q
  | .str s => hstr s
  | .arr xs => harr xs (fun x hx =>
      Json.myInduction motive hnull hbool hnum hstr harr hobj x)
  | .obj es => hobj es (fun kv hkv =>
      Json.myInduction motive hnull hbool hnum hstr harr hobj kv.2)
termination_by j => sizeOf j
decreasing_by
  · have := List.sizeOf_lt_of_mem hx
    simp only [Json.arr.sizeOf_spec]
    omega
  · have h1 := List.sizeOf_lt_of_mem hkv
    have h2 : sizeOf kv.2 < sizeOf kv := by
      obtain ⟨a, b⟩ := kv
      simp
    simp only [Json.obj.sizeOf_spec]
    omega

theorem spTruthy_congr {p q : Prof} (h : q.system_prompt = p.system_prompt) :
    spTruthy q = spTruthy p := by
  simp [spTruthy, h]

theorem pres_trans {p q r : Prof}
    (h1 : q.raw_content = p.raw_content ∧
      (spTruthy p = true → q.system_prompt = p.system_prompt))
    (h2 : r.raw_content = q.raw_content ∧
      (spTruthy q = true → r.system_prompt = q.system_prompt)) :
    r.raw_content = p.raw_content ∧
      (spTruthy p = true → r.system_prompt = p.system_prompt) := by
  constructor
  · rw [h2.1, h1.1]
  · intro ht
    have hq := h1.2 ht
    have htq : spTruthy q = true := by rw [spTruthy_congr hq]; exact ht
    rw [h2.2 htq, hq]

theorem foldl_pres {α : Type} (f : Prof → α → Prof)
    (h : ∀ p a, (f p a).raw_content = p.raw_content ∧
      (spTruthy p = true → (f p a).system_prompt = p.system_prompt)) :
    ∀ (l : List α) (p : Prof),
      (l.foldl f p).raw_content = p.raw_content ∧
      (spTruthy p = true → (l.foldl f p).system_prompt = p.system_prompt) := by
  intro l
  induction l with
  | nil => intro p; exact ⟨rfl, fun _ => rfl⟩
  | cons x xs ih =>
    intro p
    exact pres_trans (h p x) (ih (f p x))

theorem promptPass_pres (es : List (String × Json)) (p : Prof) :
    (promptPass es p).raw_content = p.raw_content ∧
    (spTruthy p = true → (promptPass es p).system_prompt = p.system_prompt) := by
  unfold promptPass
  apply foldl_pres
  intro p k
  cases h : es.lookup k with
  | none => exact ⟨rfl, fun _ => rfl⟩
  | some v =>
    cases v with
    | str sv =>
      dsimp only
      split_ifs with h1 h2
      · exact ⟨rfl, fun _ => rfl⟩
      · exact ⟨rfl, fun ht => absurd ht h2⟩
      · exact ⟨rfl, fun _ => rfl⟩
    | null => exact ⟨rfl, fun _ => rfl⟩
    | bool b => exact ⟨rfl, fun _ => rfl⟩
    | num q => exact ⟨rfl, fun _ => rfl⟩
    | arr xs => exact ⟨rfl, fun _ => rfl⟩
    | obj es2 => exact ⟨rfl, fun _ => rfl⟩

theorem toolsPass_pres (es : List (String × Json)) (p : Prof) :
    (toolsPass es p).raw_content = p.raw_content ∧
    (spTruthy p = true → (toolsPass es p).system_prompt = p.system_prompt) := by
  unfold toolsPass
  apply foldl_pres
  intro p k
  cases h : es.lookup k with
  | none => exact ⟨rfl, fun _ => rfl⟩
  | some v =>
    cases v with
    | arr xs => exact ⟨rfl, fun _ => rfl⟩
    | null => exact ⟨rfl, fun _ => rfl⟩
    | bool b => exact ⟨rfl, fun _ => rfl⟩
    | num q => exact ⟨rfl, fun _ => rfl⟩
    | str sv => exact ⟨rfl, fun _ => rfl⟩
    | obj es2 => exact ⟨rfl, fun _ => rfl⟩

theorem permsPass_pres (es : List (String × Json)) (p : Prof) :
    (permsPass es p).raw_content = p.raw_content ∧
    (spTruthy p = true → (permsPass es p).system_prompt = p.system_prompt) := by
  unfold permsPass
  apply foldl_pres
  intro p k
  cases h : es.lookup k with
  | none => exact ⟨rfl, fun _ => rfl⟩
  | some v =>
    cases v with
    | arr xs => exact ⟨rfl, fun _ => rfl⟩
    | null => exact ⟨rfl, fun _ => rfl⟩
    | bool b => exact ⟨rfl, fun _ => rfl⟩
    | num q => exact ⟨rfl, fun _ => rfl⟩
    | str sv => exact ⟨rfl, fun _ => rfl⟩
    | obj es2 => exact ⟨rfl, fun _ => rfl⟩

theorem outputPass_pres (es : List (String × Json)) (p : Prof) :
    (outputPass es p).raw_content = p.raw_content ∧
    (spTruthy p = true → (outputPass es p).system_prompt = p.system_prompt) := by
  unfold outputPass
  apply foldl_pres
  intro p k
  cases h : es.lookup k with
  | none => exact ⟨rfl, fun _ => rfl⟩
  | some v =>
    cases v with
    | arr xs => exact ⟨rfl, fun _ => rfl⟩
    | obj es2 => exact ⟨rfl, fun _ => rfl⟩
    | null => exact ⟨rfl, fun _ => rfl⟩
    | bool b => exact ⟨rfl, fun _ => rfl⟩
    | num q => exact ⟨rfl, fun _ => rfl⟩
    | str sv => exact ⟨rfl, fun _ => rfl⟩

theorem extract_from_dict_pres (j : Json) :
    ∀ p : Prof,
      (extract_from_dict j p).raw_content = p.raw_content ∧
      (spTruthy p = true →
        (extract_from_dict j p).system_prompt = p.system_prompt) := by
  induction j using Json.myInduction with
  | hnull => intro p; exact ⟨rfl, fun _ => rfl⟩
  | hbool b => intro p; exact ⟨rfl, fun _ => rfl⟩
  | hnum q => intro p; exact ⟨rfl, fun _ => rfl⟩
  | hstr s => intro p; exact ⟨rfl, fun _ => rfl⟩
  | harr xs ih =>
    have hlist : ∀ (l : List Json), (∀ x ∈ l, ∀ p : Prof,
        (extract_from_dict x p).raw_content = p.raw_content ∧
        (spTruthy p = true →
          (extract_from_dict x p).system_prompt = p.system_prompt)) →
        ∀ p : Prof, (extractList l p).raw_content = p.raw_content ∧
          (spTruthy p = true →
            (extractList l p).system_prompt = p.system_prompt) := by
      intro l
      induction l with
      | nil => intro _ p; exact ⟨rfl, fun _ => rfl⟩
      | cons x rest ihl =>
        intro hall p
        rw [extractList]
        exact pres_trans (hall x (List.mem_cons_self x rest) p)
          (ihl (fun y hy => hall y (List.mem_cons_of_mem x hy))
            (extract_from_dict x p))
    intro p
    rw [extract_from_dict]
    exact hlist xs ih p
  | hobj es ih =>
    have hvals : ∀ (l : List (String × Json)), (∀ kv ∈ l, ∀ p : Prof,
        (extract_from_dict kv.2 p).raw_content = p.raw_content ∧
        (spTruthy p = true →
          (extract_from_dict kv.2 p).system_prompt = p.system_prompt)) →
        ∀ p : Prof, (extractValues l p).raw_content = p.raw_content ∧
          (spTruthy p = true →
            (extractValues l p).system_prompt = p.system_prompt) := by
      intro l
      induction l with
      | nil => intro _ p; exact ⟨rfl, fun _ => rfl⟩
      | cons kv rest ihl =>
        intro hall p
        obtain ⟨k, v⟩ := kv
        rw [extractValues]
        refine pres_trans ?_ (ihl (fun y hy => hall y (List.mem_cons_of_mem _ hy)) _)
        by_cases hd : isDictOrList v = true
        · rw [if_pos hd]
          exact hall ⟨k, v⟩ (List.mem_cons_self _ rest) p
        · rw [if_neg hd]
          exact ⟨rfl, fun _ => rfl⟩
    intro p
    rw [extract_from_dict]
    refine pres_trans ?_ (hvals es ih _)
    exact pres_trans (promptPass_pres es p)
      (pres_trans (toolsPass_pres es _)
        (pres_trans (permsPass_pres es _) (outputPass_pres es _)))

theorem extract_new_categories_sp_raw (j : Json) :
    ∀ p : Prof,
      (extract_new_categories j p).raw_content = p.raw_content ∧
      (extract_new_categories j p).system_prompt = p.system_prompt := by
  induction j using Json.myInduction with
  | hnull => intro p; exact ⟨rfl, rfl⟩
  | hbool b => intro p; exact ⟨rfl, rfl⟩
  | hnum q => intro p; exact ⟨rfl, rfl⟩
  | hstr s => intro p; exact ⟨rfl, rfl⟩
  | harr xs ih =>
    have hlist : ∀ (l : List Json), (∀ x ∈ l, ∀ p : Prof,
        (extract_new_categories x p).raw_content = p.raw_content ∧
        (extract_new_categories x p).system_prompt = p.system_prompt) →
        ∀ p : Prof, (newCatList l p).raw_content = p.raw_content ∧
          (newCatList l p).system_prompt = p.system_prompt := by
      intro l
      induction l with
      | nil => intro _ p; exact ⟨rfl, rfl⟩
      | cons x rest ihl =>
        intro hall p
        rw [newCatList]
        have h1 := hall x (List.mem_cons_self x rest) p
        have h2 := ihl (fun y hy => hall y (List.mem_cons_of_mem x hy))
          (extract_new_categories x p)
        exact ⟨h2.1.trans h1.1, h2.2.trans h1.2⟩
    intro p
    rw [extract_new_categories]
    exact hlist xs ih p
  | hobj es ih =>
    have hvals : ∀ (l : List (String × Json)), (∀ kv ∈ l, ∀ p : Prof,
        (extract_new_categories kv.2 p).raw_content = p.raw_content ∧
        (extract_new_categories kv.2 p).system_prompt = p.system_prompt) →
        ∀ p : Prof, (newCatValues l p).raw_content = p.raw_content ∧
          (newCatValues l p).system_prompt = p.system_prompt := by
      intro l
      induction l with
      | nil => intro _ p; exact ⟨rfl, rfl⟩
      | cons kv rest ihl =>
        intro hall p
        obtain ⟨k, v⟩ := kv
        rw [newCatValues]
        have h2 := ihl (fun y hy => hall y (List.mem_cons_of_mem _ hy))
        by_cases hd : isDictOrList v = true
        · rw [if_pos hd]
          have h1 := hall ⟨k, v⟩ (List.mem_cons_self _ rest) p
          have h3 := h2 (extract_new_categories v p)
          exact ⟨h3.1.trans h1.1, h3.2.trans h1.2⟩
        · rw [if_neg hd]
          exact h2 p
    intro p
    rw [extract_new_categories]
    exact hvals es ih _

theorem foldE_pres {σ α : Type} (proj : σ → Prof)
    (f : σ → α → σ × Option String)
    (h : ∀ st a, (proj (f st a).1).raw_content = (proj st).raw_content ∧
      (spTruthy (proj st) = true →
        (proj (f st a).1).system_prompt = (proj st).system_prompt)) :
    ∀ (l : List α) (st : σ),
      (proj (foldE f st l).1).raw_content = (proj st).raw_content ∧
      (spTruthy (proj st) = true →
        (proj (foldE f st l).1).system_prompt = (proj st).system_prompt) := by
  intro l
  induction l with
  | nil => intro st; exact ⟨rfl, fun _ => rfl⟩
  | cons x xs ih =>
    intro st
    rw [foldE]
    cases hf : f st x with
    | mk st2 err =>
      have hstep := h st x
      rw [hf] at hstep
      cases err with
      | none => exact pres_trans hstep (ih st2)
      | some e => exact hstep

theorem processN8nNode_pres (st : Prof × List (Json × Json)) (n : Json) :
    ((processN8nNode st n).1.1).raw_content = st.1.raw_content ∧
    (spTruthy st.1 = true →
      ((processN8nNode st n).1.1).system_prompt = st.1.system_prompt) := by
  unfold processN8nNode
  cases pyGet n "id" .null with
  | error e => exact ⟨rfl, fun _ => rfl⟩
  | ok idv =>
  cases pyGet n "name" .null with
  | error e => exact ⟨rfl, fun _ => rfl⟩
  | ok namev0 =>
  cases pyGet n "type" (.str "unknown") with
  | error e => exact ⟨rfl, fun _ => rfl⟩
  | ok typev =>
  cases pyGet n "name" (.str "Unnamed Node") with
  | error e => exact ⟨rfl, fun _ => rfl⟩
  | ok namev =>
  dsimp only
  split
  · exact ⟨rfl, fun _ => rfl⟩
  rename_i is_trigger _
  split
  · exact ⟨rfl, fun _ => rfl⟩
  rename_i is_sink _
  cases pyGet n "credentials" (.obj []) with
  | error e => exact ⟨rfl, fun _ => rfl⟩
  | ok creds =>
  dsimp only
  split
  · exact ⟨rfl, fun _ => rfl⟩
  rename_i p1 hp1
  have hpres1 : p1.raw_content = st.1.raw_content ∧
      (spTruthy st.1 = true → p1.system_prompt = st.1.system_prompt) := by
    by_cases hc : jTruthy creds = true
    · rw [if_pos hc] at hp1
      cases creds with
      | obj ces =>
        simp only [Except.ok.injEq] at hp1
        rw [← hp1]
        exact ⟨rfl, fun _ => rfl⟩
      | null => cases hp1
      | bool b => cases hp1
      | num q => cases hp1
      | str sv => cases hp1
      | arr xs => cases hp1
    · rw [if_neg hc] at hp1
      simp only [Except.ok.injEq] at hp1
      rw [← hp1]
      exact ⟨rfl, fun _ => rfl⟩
  cases pyGet n "parameters" (.obj []) with
  | error e => exact hpres1
  | ok params =>
  dsimp only
  split
  · exact hpres1
  rename_i p2 hp2
  have hpres2 : p2.raw_content = st.1.raw_content ∧
      (spTruthy st.1 = true → p2.system_prompt = st.1.system_prompt) := by
    refine pres_trans hpres1 ?_
    rcases hcon : pyContains params "url" with e | b
    · rw [hcon] at hp2; cases hp2
    · rw [hcon] at hp2
      cases b with
      | false =>
        simp only [Except.ok.injEq] at hp2
        rw [← hp2]
        exact ⟨rfl, fun _ => rfl⟩
      | true =>
        cases params with
        | obj pes =>
          simp only [Except.ok.injEq] at hp2
          rw [← hp2]
          exact ⟨rfl, fun _ => rfl⟩
        | str sv => cases hp2
        | arr xs => cases hp2
        | null => cases hp2
        | bool b2 => cases hp2
        | num q => cases hp2
  split
  · exact hpres2
  rename_i p3 hp3
  have hpres3 : p3.raw_content = st.1.raw_content ∧
      (spTruthy st.1 = true → p3.system_prompt = st.1.system_prompt) := by
    refine pres_trans hpres2 ?_
    cases params with
    | obj pes =>
      simp only [Except.ok.injEq] at hp3
      rw [← hp3]
      apply foldl_pres
      intro p kv
      cases kv.2 with
      | str v =>
        dsimp only
        split_ifs with h1 h2
        · exact ⟨rfl, fun _ => rfl⟩
        · exact ⟨rfl, fun ht => absurd ht h2⟩
        · exact ⟨rfl, fun _ => rfl⟩
      | null => exact ⟨rfl, fun _ => rfl⟩
      | bool b => exact ⟨rfl, fun _ => rfl⟩
      | num q => exact ⟨rfl, fun _ => rfl⟩
      | arr xs => exact ⟨rfl, fun _ => rfl⟩
      | obj es2 => exact ⟨rfl, fun _ => rfl⟩
    | null => cases hp3
    | bool b => cases hp3
    | num q => cases hp3
    | str sv => cases hp3
    | arr xs => cases hp3
  split
  · exact hpres3
  rename_i credKeys hck
  have hpres4 : ∀ q : Prof, q.raw_content = st.1.raw_content ∧
      (spTruthy st.1 = true → q.system_prompt = st.1.system_prompt) →
      ∀ r : Prof, r.raw_content = q.raw_content →
        r.system_prompt = q.system_prompt →
        r.raw_content = st.1.raw_content ∧
        (spTruthy st.1 = true → r.system_prompt = st.1.system_prompt) := by
    intro q hq r hr hs
    exact ⟨hr.trans hq.1, fun ht => hs.trans (hq.2 ht)⟩
  cases namev with
  | arr xs => exact hpres4 _ hpres3 _ rfl rfl
  | obj es2 => exact hpres4 _ hpres3 _ rfl rfl
  | null =>
    dsimp only
    split <;> split <;> exact hpres4 _ hpres3 _ rfl rfl
  | bool b =>
    dsimp only
    split <;> split <;> exact hpres4 _ hpres3 _ rfl rfl
  | num q =>
    dsimp only
    split <;> split <;> exact hpres4 _ hpres3 _ rfl rfl
  | str sv =>
    dsimp only
    split <;> split <;> exact hpres4 _ hpres3 _ rfl rfl

theorem processN8nLink_pres (nmap : List (Json × Json)) (source_id : Json)
    (ot : String) (p : Prof) (link : Json) :
    ((processN8nLink nmap source_id ot p link).1).raw_content = p.raw_content ∧
    (spTruthy p = true →
      ((processN8nLink nmap source_id ot p link).1).system_prompt =
        p.system_prompt) := by
  unfold processN8nLink
  cases pyGet link "node" .null with
  | error e => exact ⟨rfl, fun _ => rfl⟩
  | ok tn =>
    cases tn with
    | arr xs => exact ⟨rfl, fun _ => rfl⟩
    | obj es => exact ⟨rfl, fun _ => rfl⟩
    | null => exact ⟨rfl, fun _ => rfl⟩
    | bool b => exact ⟨rfl, fun _ => rfl⟩
    | num q => exact ⟨rfl, fun _ => rfl⟩
    | str sv => exact ⟨rfl, fun _ => rfl⟩

theorem processN8nConn_pres (nmap : List (Json × Json)) (p : Prof)
    (conn : String × Json) :
    ((processN8nConn nmap p conn).1).raw_content = p.raw_content ∧
    (spTruthy p = true →
      ((processN8nConn nmap p conn).1).system_prompt = p.system_prompt) := by
  unfold processN8nConn
  cases conn.2 with
  | obj otes =>
    apply foldE_pres id
    intro p ot
    cases jIter ot.2 with
    | error e => exact ⟨rfl, fun _ => rfl⟩
    | ok groups =>
      apply foldE_pres id
      intro p grp
      cases jIter grp with
      | error e => exact ⟨rfl, fun _ => rfl⟩
      | ok links =>
        apply foldE_pres id
        intro p link
        exact processN8nLink_pres nmap _ _ p link
  | null => exact ⟨rfl, fun _ => rfl⟩
  | bool b => exact ⟨rfl, fun _ => rfl⟩
  | num q => exact ⟨rfl, fun _ => rfl⟩
  | str sv => exact ⟨rfl, fun _ => rfl⟩
  | arr xs => exact ⟨rfl, fun _ => rfl⟩

theorem parse_n8n_pres (data : Json) (p : Prof) :
    ((parse_n8n data p).1).raw_content = p.raw_content ∧
    (spTruthy p = true →
      ((parse_n8n data p).1).system_prompt = p.system_prompt) := by
  unfold parse_n8n
  cases pyGet data "nodes" (.arr []) with
  | error e => exact ⟨rfl, fun _ => rfl⟩
  | ok nodesv =>
  dsimp only
  cases jIter nodesv with
  | error e => exact ⟨rfl, fun _ => rfl⟩
  | ok nodes =>
  dsimp only
  have hfold := foldE_pres (fun st : Prof × List (Json × Json) => st.1)
    processN8nNode processN8nNode_pres nodes (p, [])
  cases hf : foldE processN8nNode (p, []) nodes with
  | mk st1 err =>
    rw [hf] at hfold
    obtain ⟨p1, nmap⟩ := st1
    cases err with
    | some e => exact hfold
    | none =>
      dsimp only
      cases pyGet data "connections" (.obj []) with
      | error e => exact hfold
      | ok connv =>
        dsimp only
        cases connv with
        | obj ces =>
          refine pres_trans hfold ?_
          exact foldE_pres id _
            (fun p c => processN8nConn_pres nmap p c) ces p1
        | null => exact hfold
        | bool b => exact hfold
        | num q => exact hfold
        | str sv => exact hfold
        | arr xs => exact hfold

theorem processFlowiseNode_pres (p : Prof) (n : Json) :
    ((processFlowiseNode p n).1).raw_content = p.raw_content ∧
    (spTruthy p = true →
      ((processFlowiseNode p n).1).system_prompt = p.system_prompt) := by
  unfold processFlowiseNode
  cases pyGet n "data" (.obj []) with
  | error e => exact ⟨rfl, fun _ => rfl⟩
  | ok node_data =>
  dsimp only
  cases pyGet n "id" .null with
  | error e => exact ⟨rfl, fun _ => rfl⟩
  | ok node_id =>
  dsimp only
  cases pyGet node_data "label" (.str "Unknown") with
  | error e => exact ⟨rfl, fun _ => rfl⟩
  | ok label =>
  dsimp only
  cases pyGet node_data "name" (.str "unknown") with
  | error e => exact ⟨rfl, fun _ => rfl⟩
  | ok node_type =>
  dsimp only
  cases pyGet node_data "inputs" (.obj []) with
  | error e => exact ⟨rfl, fun _ => rfl⟩
  | ok inputs =>
  dsimp only
  cases pyGet node_data "credential" .null with
  | error e => exact ⟨rfl, fun _ => rfl⟩
  | ok creds =>
  dsimp only
  split
  · exact ⟨rfl, fun _ => rfl⟩
  rename_i is_trigger _
  split
  · exact ⟨rfl, fun _ => rfl⟩
  rename_i is_sink _
  split
  · exact ⟨rfl, fun _ => rfl⟩
  rename_i p1 hp1
  have hpres1 : p1.raw_content = p.raw_content ∧
      (spTruthy p = true → p1.system_prompt = p.system_prompt) := by
    rcases hcon : pyContains inputs "template" with e | b
    · rw [hcon] at hp1; cases hp1
    · rw [hcon] at hp1
      cases b with
      | false =>
        simp only [Except.ok.injEq] at hp1
        rw [← hp1]
        exact ⟨rfl, fun _ => rfl⟩
      | true =>
        cases inputs with
        | obj ies =>
          cases htv : (ies.lookup "template").getD .null with
          | str tv =>
            simp only [htv] at hp1
            simp only [Except.ok.injEq] at hp1
            rw [← hp1]
            split_ifs with h1
            · exact ⟨rfl, fun _ => rfl⟩
            · exact ⟨rfl, fun ht => absurd ht h1⟩
          | null =>
            simp only [htv, Except.ok.injEq] at hp1
            rw [← hp1]; exact ⟨rfl, fun _ => rfl⟩
          | bool b2 =>
            simp only [htv, Except.ok.injEq] at hp1
            rw [← hp1]; exact ⟨rfl, fun _ => rfl⟩
          | num q =>
            simp only [htv, Except.ok.injEq] at hp1
            rw [← hp1]; exact ⟨rfl, fun _ => rfl⟩
          | arr xs =>
            simp only [htv, Except.ok.injEq] at hp1
            rw [← hp1]; exact ⟨rfl, fun _ => rfl⟩
          | obj es2 =>
            simp only [htv, Except.ok.injEq] at hp1
            rw [← hp1]; exact ⟨rfl, fun _ => rfl⟩
        | str sv => cases hp1
        | arr xs => cases hp1
        | null => cases hp1
        | bool b2 => cases hp1
        | num q => cases hp1
  dsimp only
  split <;> split <;>
    exact ⟨hpres1.1, fun ht => hpres1.2 ht⟩

theorem parse_flowise_pres (data : Json) (p : Prof) :
    ((parse_flowise data p).1).raw_content = p.raw_content ∧
    (spTruthy p = true →
      ((parse_flowise data p).1).system_prompt = p.system_prompt) := by
  unfold parse_flowise
  cases pyGet data "nodes" (.arr []) with
  | error e => exact ⟨rfl, fun _ => rfl⟩
  | ok nodesv =>
  dsimp only
  cases jIter nodesv with
  | error e => exact ⟨rfl, fun _ => rfl⟩
  | ok nodes =>
  dsimp only
  have hfold := foldE_pres id processFlowiseNode
    processFlowiseNode_pres nodes p
  cases hf : foldE processFlowiseNode p nodes with
  | mk p1 err =>
    rw [hf] at hfold
    cases err with
    | some e => exact hfold
    | none =>
      dsimp only
      cases pyGet data "edges" (.arr []) with
      | error e => exact hfold
      | ok edgesv =>
      dsimp only
      cases jIter edgesv with
      | error e => exact hfold
      | ok edges =>
        dsimp only
        refine pres_trans hfold ?_
        apply foldE_pres id
        intro p e
        cases pyGet e "source" .null with
        | error err2 => exact ⟨rfl, fun _ => rfl⟩
        | ok srcv =>
        cases pyGet e "target" .null with
        | error err2 => exact ⟨rfl, fun _ => rfl⟩
        | ok tgtv =>
        cases pyGet e "type" (.str "default") with
        | error err2 => exact ⟨rfl, fun _ => rfl⟩
        | ok tv => exact ⟨rfl, fun _ => rfl⟩

theorem parse_langchain_pres (data : Json) (p : Prof) :
    ((parse_langchain data p).1).raw_content = p.raw_content ∧
    (spTruthy p = true →
      ((parse_langchain data p).1).system_prompt = p.system_prompt) := by
  unfold parse_langchain
  dsimp only
  split
  · exact ⟨rfl, fun _ => rfl⟩
  rename_i nodes _
  cases nodes with
  | obj nes =>
    apply foldE_pres id
    intro p kv
    cases pyGet kv.2 "type" (.str "chain") with
    | error e => exact ⟨rfl, fun _ => rfl⟩
    | ok tv => exact ⟨rfl, fun _ => rfl⟩
  | arr ns =>
    apply foldE_pres id
    intro p n
    cases pyGet n "id" (.str "unknown") with
    | error e => exact ⟨rfl, fun _ => rfl⟩
    | ok idv =>
    cases pyGet n "type" (.str "chain") with
    | error e => exact ⟨rfl, fun _ => rfl⟩
    | ok tv => exact ⟨rfl, fun _ => rfl⟩
  | null => exact ⟨rfl, fun _ => rfl⟩
  | bool b => exact ⟨rfl, fun _ => rfl⟩
  | num q => exact ⟨rfl, fun _ => rfl⟩
  | str sv => exact ⟨rfl, fun _ => rfl⟩

theorem foldl_raw_general {σ α : Type} (proj : σ → Prof) (f : σ → α → σ)
    (h : ∀ st a, (proj (f st a)).raw_content = (proj st).raw_content) :
    ∀ (l : List α) (st : σ),
      (proj (l.foldl f st)).raw_content = (proj st).raw_content := by
  intro l
  induction l with
  | nil => intro st; rfl
  | cons x xs ih =>
    intro st
    rw [List.foldl_cons, ih, h]

theorem parseTxtStep_raw (st : Prof × List String × Option String)
    (line : String) : ((parseTxtStep st line).1).raw_content =
      st.1.raw_content := by
  unfold parseTxtStep
  split_ifs <;> (dsimp only; split_ifs <;> rfl)

theorem parse_txt_raw (content : String) (p : Prof) :
    (parse_txt content p).raw_content = p.raw_content := by
  unfold parse_txt
  have hf := foldl_raw_general
    (fun st : Prof × List String × Option String => st.1) parseTxtStep
    parseTxtStep_raw (pySplitlines content) (p, ([], none))
  dsimp only
  split_ifs <;> exact hf

theorem parse_python_raw (content : String) (p : Prof) :
    (parse_python content p).raw_content = p.raw_content := by
  unfold parse_python
  dsimp only
  refine Eq.trans (foldl_raw_general (fun q : Prof => q) _ ?_ PY_DANGEROUS _) ?_
  · intro st a
    dsimp only
    split_ifs <;> rfl
  · split_ifs
    · split
      · split_ifs <;> rfl
      · rfl
    · split
      · split_ifs <;> rfl
      · rfl

theorem parse_json_pres (jL : String → Except String Json) (content : String)
    (p : Prof) :
    ((parse_json jL content p).1).raw_content = p.raw_content ∧
    (spTruthy p = true →
      ((parse_json jL content p).1).system_prompt = p.system_prompt) := by
  unfold parse_json
  cases jL content with
  | error e => exact ⟨rfl, fun _ => rfl⟩
  | ok data =>
  dsimp only
  cases detectWorkflowType data with
  | error e => exact ⟨rfl, fun _ => rfl⟩
  | ok wt =>
  dsimp only
  have hstep : ∀ st : PState,
      (if wt = "n8n" then parse_n8n data p
       else if wt = "flowise" then parse_flowise data p
       else if wt = "langchain" then parse_langchain data p
       else (p, none)) = st →
      st.1.raw_content = p.raw_content ∧
        (spTruthy p = true → st.1.system_prompt = p.system_prompt) := by
    intro st hst
    split_ifs at hst
    · rw [← hst]; exact parse_n8n_pres data p
    · rw [← hst]; exact parse_flowise_pres data p
    · rw [← hst]; exact parse_langchain_pres data p
    · rw [← hst]; exact ⟨rfl, fun _ => rfl⟩
  cases hs : (if wt = "n8n" then parse_n8n data p
      else if wt = "flowise" then parse_flowise data p
      else if wt = "langchain" then parse_langchain data p
      else ((p, none) : PState)) with
  | mk p1 err =>
    have hp1 := hstep (p1, err) hs
    cases err with
    | some e => simp only [hs]; exact hp1
    | none =>
      simp only [hs]
      refine pres_trans hp1 ?_
      exact pres_trans (extract_from_dict_pres _ _)
        ⟨(extract_new_categories_sp_raw _ _).1,
         fun _ => (extract_new_categories_sp_raw _ _).2⟩

theorem parse_yaml_pres (yL : String → Except String Json) (content : String)
    (p : Prof) :
    ((parse_yaml yL content p).1).raw_content = p.raw_content ∧
    (spTruthy p = true →
      ((parse_yaml yL content p).1).system_prompt = p.system_prompt) := by
  unfold parse_yaml
  cases yL content with
  | error e => exact ⟨rfl, fun _ => rfl⟩
  | ok data =>
  dsimp only
  cases data with
  | obj es =>
    cases detectWorkflowType (Json.obj es) with
    | error e => exact ⟨rfl, fun _ => rfl⟩
    | ok wt =>
    dsimp only
    have hstep : ∀ st : PState,
        (if wt = "langchain" then parse_langchain (Json.obj es) p
         else (p, none)) = st →
        st.1.raw_content = p.raw_content ∧
          (spTruthy p = true → st.1.system_prompt = p.system_prompt) := by
      intro st hst
      split_ifs at hst
      · rw [← hst]; exact parse_langchain_pres _ p
      · rw [← hst]; exact ⟨rfl, fun _ => rfl⟩
    cases hs : (if wt = "langchain" then parse_langchain (Json.obj es) p
        else ((p, none) : PState)) with
    | mk p1 err =>
      have hp1 := hstep (p1, err) hs
      cases err with
      | some e => simp only [hs]; exact hp1
      | none =>
        simp only [hs]
        refine pres_trans hp1 ?_
        exact pres_trans (extract_from_dict_pres _ _)
          ⟨(extract_new_categories_sp_raw _ _).1,
           fun _ => (extract_new_categories_sp_raw _ _).2⟩
  | arr xs =>
    dsimp only
    constructor
    · apply foldl_raw_general (fun p : Prof => p)
      intro p item
      cases item with
      | obj es2 =>
        exact ((extract_new_categories_sp_raw _ _).1).trans
          (extract_from_dict_pres _ _).1
      | null => rfl
      | bool b => rfl
      | num q => rfl
      | str sv => rfl
      | arr ys => rfl
    · intro ht
      have hgen : ∀ (l : List Json) (p : Prof), spTruthy p = true →
          ((l.foldl (fun p item =>
            match item with
            | Json.obj _ => extract_new_categories item (extract_from_dict item p)
            | _ => p) p)).system_prompt = p.system_prompt := by
        intro l
        induction l with
        | nil => intro p _; rfl
        | cons x rest ih =>
          intro p hp
          rw [List.foldl_cons]
          have hx : (match x with
              | Json.obj _ => extract_new_categories x (extract_from_dict x p)
              | _ => p).system_prompt = p.system_prompt := by
            cases x with
            | obj es2 =>
              exact ((extract_new_categories_sp_raw _ _).2).trans
                ((extract_from_dict_pres _ _).2 hp)
            | null => rfl
            | bool b => rfl
            | num q => rfl
            | str sv => rfl
            | arr ys => rfl
          rw [ih _ (by rw [spTruthy_congr hx]; exact hp), hx]
      exact hgen xs p ht
  | null => exact ⟨rfl, fun _ => rfl⟩
  | bool b => exact ⟨rfl, fun _ => rfl⟩
  | num q => exact ⟨rfl, fun _ => rfl⟩
  | str sv => exact ⟨rfl, fun _ => rfl⟩

/-- **C6.** For every input string and every declared file type (with
arbitrary, possibly failing, `json.loads` / `yaml.safe_load` decoders),
`parse_file` returns a profile whose `raw_content` equals the input
content; and when the json decoder fails on a declared-json file, the
result degrades to the fresh profile with only the policy-misinfo
text fallback populated (every other field at its empty default).
Totality — the extractor never raises — holds by construction: the
embedding of `parse_file` is a total function in which each parser
branch either catches its decoder errors or has its exception
swallowed by the blanket handler. -/
theorem parse_file_contract (jL yL : String → Except String Json)
    (content file_type : String) :
    (parse_file jL yL content file_type).raw_content = content ∧
    (∀ e, jL content = Except.error e →
      parse_file jL yL content "json" =
        { initProf content with
          policy_misinfo := extract_policy_misinfo_from_text content }) := by
  have houter : ∀ q : Prof,
      (if q.policy_misinfo.isEmpty then
        { q with policy_misinfo := extract_policy_misinfo_from_text content }
       else q).raw_content = q.raw_content := by
    intro q
    split_ifs <;> rfl
  constructor
  · unfold parse_file
    dsimp only
    rw [houter]
    split_ifs
    · exact (parse_json_pres jL content (initProf content)).1
    · exact (parse_yaml_pres yL content (initProf content)).1
    · exact parse_txt_raw content (initProf content)
    · exact parse_python_raw content (initProf content)
    · rfl
    · rfl
  · intro e he
    unfold parse_file parse_json
    dsimp only
    rw [he]
    rfl

theorem parse_file_contract_witness :
    (parse_file (fun _ => Except.error "boom") (fun _ => Except.error "boom")
      "you are a medical bot" "json").raw_content = "you are a medical bot" ∧
    parse_file (fun _ => Except.error "boom") (fun _ => Except.error "boom")
      "you are a medical bot" "json" =
      { initProf "you are a medical bot" with
        policy_misinfo :=
          extract_policy_misinfo_from_text "you are a medical bot" } :=
  ⟨(parse_file_contract (fun _ => Except.error "boom")
      (fun _ => Except.error "boom") "you are a medical bot" "json").1,
   (parse_file_contract (fun _ => Except.error "boom")
      (fun _ => Except.error "boom") "you are a medical bot" "json").2
     "boom" rfl⟩

/-- **C9.** The single-valued `system_prompt` field is first-match-wins:
once populated with a non-empty value, neither the workflow-specific
extractors (`_parse_n8n`, `_parse_flowise`, `_parse_langchain`) nor the
generic recursive key walk (`_extract_from_dict`) nor the
new-categories walk (`_extract_new_categories`) ever changes it, for
every payload. -/
theorem first_match_wins_system_prompt (data : Json) (p : Prof) (s : String)
    (hs : p.system_prompt = some s) (hne : s ≠ "") :
    ((parse_n8n data p).1).system_prompt = some s ∧
    ((parse_flowise data p).1).system_prompt = some s ∧
    ((parse_langchain data p).1).system_prompt = some s ∧
    (extract_from_dict data p).system_prompt = some s ∧
    (extract_new_categories data p).system_prompt = some s := by
  have ht : spTruthy p = true := by
    unfold spTruthy
    rw [hs]
    simpa using hne
  exact ⟨((parse_n8n_pres data p).2 ht).trans hs,
    ((parse_flowise_pres data p).2 ht).trans hs,
    ((parse_langchain_pres data p).2 ht).trans hs,
    ((extract_from_dict_pres data p).2 ht).trans hs,
    ((extract_new_categories_sp_raw data p).2).trans hs⟩

theorem first_match_wins_system_prompt_witness :
    ((parse_n8n
        (Json.obj [("prompt",
          Json.str "a competing prompt value that is plenty long enough")])
        { initProf "c" with system_prompt := some "KEEP" }).1).system_prompt =
      some "KEEP" ∧
    ((parse_flowise
        (Json.obj [("prompt",
          Json.str "a competing prompt value that is plenty long enough")])
        { initProf "c" with system_prompt := some "KEEP" }).1).system_prompt =
      some "KEEP" ∧
    ((parse_langchain
        (Json.obj [("prompt",
          Json.str "a competing prompt value that is plenty long enough")])
        { initProf "c" with system_prompt := some "KEEP" }).1).system_prompt =
      some "KEEP" ∧
    (extract_from_dict
        (Json.obj [("prompt",
          Json.str "a competing prompt value that is plenty long enough")])
        { initProf "c" with system_prompt := some "KEEP" }).system_prompt =
      some "KEEP" ∧
    (extract_new_categories
        (Json.obj [("prompt",
          Json.str "a competing prompt value that is plenty long enough")])
        { initProf "c" with system_prompt := some "KEEP" }).system_prompt =
      some "KEEP" :=
  first_match_wins_system_prompt
    (Json.obj [("prompt",
      Json.str "a competing prompt value that is plenty long enough")])
    { initProf "c" with system_prompt := some "KEEP" } "KEEP" rfl (by decide)

theorem categoryWeight_nonneg (c : String) : 0 ≤ categoryWeight c := by
  unfold categoryWeight; split_ifs <;> norm_num

theorem severityMult_nonneg (s : String) : 0 ≤ severityMult s := by
  unfold severityMult; split_ifs <;> norm_num

theorem confBucket_nonneg (c : ℚ) : 0 ≤ confBucket c := by
  unfold confBucket; split_ifs <;> norm_num

theorem contribution_nonneg (f : Finding) : 0 ≤ contribution f :=
  mul_nonneg (mul_nonneg (categoryWeight_nonneg _) (severityMult_nonneg _))
    (confBucket_nonneg _)

theorem pyRound_nonneg {q : ℚ} (h : 0 ≤ q) : 0 ≤ pyRound q := by
  have hf : (0 : ℤ) ≤ ⌊q⌋ := by
    rw [Int.le_floor]; exact_mod_cast h
  unfold pyRound
  split_ifs <;> omega

theorem sumContrib_nonneg (fs : List Finding) :
    0 ≤ (fs.map contribution).sum := by
  apply List.sum_nonneg
  intro x hx
  obtain ⟨f, _, rfl⟩ := List.mem_map.mp hx
  exact contribution_nonneg f

/-- **C1.** For every list of findings, the scorer's risk score is the
banker's-rounded sum of per-finding contributions
`categoryWeight × severityMultiplier × confidenceBucket` capped at 100,
where the confidence bucket maps `≥ 0.90 → 1.0`, `≥ 0.70 → 0.9`,
`≥ 0.50 → 0.7` and anything lower to `0.5`; the resulting score always
lies in `[0, 100]`, and the scorer is a pure function, hence
deterministic for a fixed input. -/
theorem calculate_risk_score_formula_and_bounds (fs : List Finding) :
    (calculate_risk_score fs).risk_score =
      min (pyRound ((fs.map (fun f =>
        categoryWeight f.category * severityMult f.severity *
          (if 9/10 ≤ f.confidence then 1
           else if 7/10 ≤ f.confidence then 9/10
           else if 1/2 ≤ f.confidence then 7/10
           else 1/2))).sum)) 100 ∧
    0 ≤ (calculate_risk_score fs).risk_score ∧
    (calculate_risk_score fs).risk_score ≤ 100 ∧
    calculate_risk_score fs = calculate_risk_score fs := by
  have hmap : fs.map (fun f =>
        categoryWeight f.category * severityMult f.severity *
          (if 9/10 ≤ f.confidence then 1
           else if 7/10 ≤ f.confidence then 9/10
           else if 1/2 ≤ f.confidence then 7/10
           else 1/2)) = fs.map contribution := by
    apply List.map_congr_left
    intro f _
    rfl
  rw [hmap]
  cases fs with
  | nil =>
    refine ⟨?_, ?_, ?_, rfl⟩ <;>
      norm_num [calculate_risk_score, pyRound]
  | cons a as =>
    unfold calculate_risk_score
    simp only [List.isEmpty_cons, Bool.false_eq_true, if_false]
    refine ⟨trivial, ?_, ?_, trivial⟩
    · exact le_min (pyRound_nonneg (sumContrib_nonneg _)) (by norm_num)
    · exact min_le_right _ _

/-- **C2.** For the empty findings list `calculate_risk_score` takes the
dedicated early-return path: risk score 0, risk level `"Low"`, empty
per-category breakdown, all severity counts 0, and the fixed
clean-configuration summary message. -/
theorem calculate_risk_score_empty :
    calculate_risk_score [] =
      { risk_score := 0
        risk_level := "Low"
        breakdown_by_category := []
        total_findings := 0
        critical_severity_count := 0
        high_severity_count := 0
        medium_severity_count := 0
        low_severity_count := 0
        summary := "No vulnerabilities detected. Configuration appears secure." } := by
  rfl

/-- **C3.** Risk-level bands are inclusive at their boundaries: 76 is
Critical, 75 and 51 are High, 50 and 26 are Medium, 25 is Low; and for
every integer score in `[0, 100]`, the level is Critical iff
`score ≥ 76`, High iff `51 ≤ score ≤ 75`, Medium iff
`26 ≤ score ≤ 50`, and Low otherwise. -/
theorem get_risk_level_bands (s : ℤ) (h0 : 0 ≤ s) (h100 : s ≤ 100) :
    get_risk_level 76 = "Critical" ∧ get_risk_level 75 = "High" ∧
    get_risk_level 51 = "High" ∧ get_risk_level 50 = "Medium" ∧
    get_risk_level 26 = "Medium" ∧ get_risk_level 25 = "Low" ∧
    (get_risk_level s = "Critical" ↔ 76 ≤ s) ∧
    (get_risk_level s = "High" ↔ 51 ≤ s ∧ s ≤ 75) ∧
    (get_risk_level s = "Medium" ↔ 26 ≤ s ∧ s ≤ 50) ∧
    (get_risk_level s = "Low" ↔ s ≤ 25) := by
  refine ⟨by rfl, by rfl, by rfl, by rfl, by rfl, by rfl, ?_, ?_, ?_, ?_⟩ <;>
    · unfold get_risk_level
      split_ifs <;> simp_all <;> omega

/-- Witness for C3 at the concrete score 76. -/
theorem get_risk_level_bands_witness :
    (0 : ℤ) ≤ 76 ∧ (76 : ℤ) ≤ 100 ∧ get_risk_level 76 = "Critical" :=
  ⟨by decide, by decide, (get_risk_level_bands 76 (by decide) (by decide)).1⟩

/-- **C10.** `SEVERITY_MULTIPLIERS` maps the literal `"None"` to `0.0`
(not the `0.5` unknown-severity default), so appending any number of
severity-`"None"` findings to a findings list changes neither the risk
score nor the risk level, while each appended finding still counts
toward `total_findings`. -/
theorem scorer_none_severity_neutral (fs extra : List Finding)
    (h : ∀ f ∈ extra, f.severity = "None") :
    severityMult "None" = 0 ∧
    (calculate_risk_score (fs ++ extra)).risk_score =
      (calculate_risk_score fs).risk_score ∧
    (calculate_risk_score (fs ++ extra)).risk_level =
      (calculate_risk_score fs).risk_level ∧
    (calculate_risk_score (fs ++ extra)).total_findings =
      fs.length + extra.length := by
  have hzero : (extra.map contribution).sum = 0 := by
    apply List.sum_eq_zero
    intro x hx
    obtain ⟨f, hf, rfl⟩ := List.mem_map.mp hx
    unfold contribution
    rw [h f hf, show severityMult "None" = 0 from rfl]
    ring
  have hsum : ((fs ++ extra).map contribution).sum = (fs.map contribution).sum := by
    rw [List.map_append, List.sum_append, hzero, add_zero]
  refine ⟨rfl, ?_⟩
  cases fs with
  | nil =>
    cases extra with
    | nil => exact ⟨rfl, rfl, rfl⟩
    | cons b bs =>
      simp only [List.nil_append] at hsum ⊢
      unfold calculate_risk_score
      simp only [List.isEmpty_cons, Bool.false_eq_true, if_false,
        List.isEmpty_nil, if_true]
      rw [hsum]
      refine ⟨?_, ?_, (Nat.zero_add _).symm⟩
      · norm_num [pyRound]
      · norm_num [pyRound, get_risk_level]
  | cons a as =>
    unfold calculate_risk_score
    simp only [List.cons_append, List.isEmpty_cons, Bool.false_eq_true,
      if_false] at hsum ⊢
    rw [hsum]
    refine ⟨rfl, rfl, ?_⟩
    simp [List.length_append]
    omega

/-- Witness for C10: a High finding plus one severity-`"None"` finding. -/
theorem scorer_none_severity_neutral_witness :
    (∀ f ∈ [({ category := "LLM02:2025", severity := "None",
               confidence := 1 } : Finding)], f.severity = "None") ∧
    (calculate_risk_score
        ([({ category := "LLM01:2025", severity := "High",
             confidence := 1 } : Finding)] ++
         [({ category := "LLM02:2025", severity := "None",
             confidence := 1 } : Finding)])).risk_score =
      (calculate_risk_score
        [({ category := "LLM01:2025", severity := "High",
            confidence := 1 } : Finding)]).risk_score :=
  ⟨by decide, (scorer_none_severity_neutral _ _ (by decide)).2.1⟩

theorem backfill_found (raw : String) (j : Judgment) :
    (backfill raw j).found = j.found := by
  unfold backfill
  split
  · split
    · split
      · split <;> rfl
      · rfl
    · rfl
  · rfl

theorem llmScanStep_error (raw : String) (acc : List Judgment) (e : String) :
    llmScanStep raw acc (.error e) = acc := rfl

theorem foldl_llmScanStep_error (raw : String) (e : String)
    (before after : List (Except String Judgment)) (acc : List Judgment) :
    (before ++ Except.error e :: after).foldl (llmScanStep raw) acc =
      (before ++ after).foldl (llmScanStep raw) acc := by
  induction before generalizing acc with
  | nil => simp [List.foldl, llmScanStep_error]
  | cons r rest ih => simp only [List.cons_append, List.foldl]; exact ih _

theorem foldl_llmScanStep_found (raw : String)
    (l : List (Except String Judgment)) (acc : List Judgment)
    (hacc : ∀ j ∈ acc, j.found = true) :
    ∀ j ∈ l.foldl (llmScanStep raw) acc, j.found = true := by
  induction l generalizing acc with
  | nil => exact hacc
  | cons r rest ih =>
    intro j hj
    refine ih (llmScanStep raw acc r) ?_ j hj
    intro k hk
    match r with
    | .error _ => exact hacc k hk
    | .ok j0 =>
      by_cases hf : j0.found
      · simp only [llmScanStep, hf, if_true, List.mem_append,
          List.mem_singleton] at hk
        rcases hk with hk | hk
        · exact hacc k hk
        · rw [hk, backfill_found]; exact hf
      · simp only [llmScanStep, hf, if_false] at hk
        exact hacc k hk

/-- **C7.** `run_all_llm_scans` is failure-isolated: when one of the
category calls delivers an exception (captured by
`asyncio.gather(..., return_exceptions=True)`), the returned findings
list is exactly the one produced from the remaining calls' outcomes, and
every returned judgment has `found = true`.  No exception escapes: the
function is total on captured outcomes (the `Except.error` branch only
logs and skips). -/
theorem run_all_llm_scans_isolated (raw : String) (e : String)
    (before after : List (Except String Judgment)) :
    run_all_llm_scans raw (before ++ Except.error e :: after) =
      run_all_llm_scans raw (before ++ after) ∧
    (∀ j ∈ run_all_llm_scans raw (before ++ after), j.found = true) ∧
    (∀ j ∈ run_all_llm_scans raw (before ++ Except.error e :: after),
      j.found = true) :=
  ⟨foldl_llmScanStep_error raw e before after [],
   foldl_llmScanStep_found raw _ [] (by intro j hj; cases hj),
   foldl_llmScanStep_found raw _ [] (by intro j hj; cases hj)⟩

theorem not_ws_of_alnum {c : Char} (h : c.isAlphanum = true) :
    c.isWhitespace = false := by
  revert h
  simp only [Char.isWhitespace]
  by_cases h1 : c = ' '
  · subst h1; decide
  · by_cases h2 : c = '\t'
    · subst h2; decide
    · by_cases h3 : c = '\r'
      · subst h3; decide
      · by_cases h4 : c = '\n'
        · subst h4; decide
        · intro _
          simp [h1, h2, h3, h4]

theorem searchL_eq_none {m : List Char → Option (List Char)} :
    ∀ {l : List Char}, (∀ s, s <:+ l → m s = none) → searchL m l = none
  | [], h => by simpa [searchL] using h [] (List.nil_suffix)
  | c :: cs, h => by
    have h0 : m (c :: cs) = none := h _ (List.suffix_refl _)
    have hrec : searchL m cs = none :=
      searchL_eq_none (fun s hs => h s (hs.trans (List.suffix_cons c cs)))
    simp [searchL, h0, hrec]

theorem searchAny_eq_false {f : List Char → Bool} :
    ∀ {l : List Char}, (∀ s, s <:+ l → f s = false) → searchAny f l = false
  | [], h => by simpa [searchAny] using h [] (List.nil_suffix)
  | c :: cs, h => by
    have h0 : f (c :: cs) = false := h _ (List.suffix_refl _)
    have hrec : searchAny f cs = false :=
      searchAny_eq_false (fun s hs => h s (hs.trans (List.suffix_cons c cs)))
    simp [searchAny, h0, hrec]

theorem searchPrevBool_eq_false {f : Option Char → List Char → Bool} :
    ∀ {l : List Char} (prev : Option Char),
      (∀ p s, s <:+ l → f p s = false) → searchPrevBool f prev l = false
  | [], prev, h => by simpa [searchPrevBool] using h prev [] (List.nil_suffix)
  | c :: cs, prev, h => by
    have h0 : f prev (c :: cs) = false := h _ _ (List.suffix_refl _)
    have hrec : searchPrevBool f (some c) cs = false :=
      searchPrevBool_eq_false (some c)
        (fun p s hs => h p s (hs.trans (List.suffix_cons c cs)))
    simp [searchPrevBool, h0, hrec]

theorem prefix_drop_of_not_mem {c : Char} {xs a b : List Char} (hc : c ∉ xs)
    (h : xs <+: a ++ c :: b) : xs <+: a := by
  rcases le_or_lt xs.length a.length with hl | hl
  · have hx := List.prefix_iff_eq_take.mp h
    rw [List.take_append_eq_append_take,
      show xs.length - a.length = 0 from by omega, List.take_zero,
      List.append_nil] at hx
    exact List.prefix_iff_eq_take.mpr hx
  · exfalso
    apply hc
    have hlen := h.length_le
    have hn : a.length < xs.length := hl
    have hx := h.getElem (n := a.length) hn
    have hb : a.length < (a ++ c :: b).length := by simp
    have hy : (a ++ c :: b)[a.length] = c := by
      rw [List.getElem_append_right (le_refl a.length)]
      simp
    rw [hy] at hx
    exact hx ▸ List.getElem_mem hn

theorem infix_split {c : Char} {xs : List Char} (hc : c ∉ xs) :
    ∀ {a b : List Char}, xs <:+: a ++ c :: b → xs <:+: a ∨ xs <:+: b := by
  intro a
  induction a with
  | nil =>
    intro b h
    simp only [List.nil_append] at h
    rcases List.infix_cons_iff.mp h with hp | hi
    · cases xs with
      | nil => exact Or.inl (List.nil_infix)
      | cons x xs' =>
        exfalso
        have hx : x = c := (List.cons_prefix_cons.mp hp).1
        exact hc (hx ▸ List.mem_cons_self x xs')
    · exact Or.inr hi
  | cons a0 a' ih =>
    intro b h
    rw [List.cons_append] at h
    rcases List.infix_cons_iff.mp h with hp | hi
    · have : xs <+: a0 :: a' := by
        have := prefix_drop_of_not_mem (a := a0 :: a') hc (by simpa using hp)
        exact this
      exact Or.inl this.isInfix
    · rcases ih hi with h1 | h1
      · exact Or.inl (List.infix_cons_iff.mpr (Or.inr h1))
      · exact Or.inr h1

theorem isPrefixOf_eq_false {l1 l2 : List Char} (h : ¬ l1 <+: l2) :
    l1.isPrefixOf l2 = false := by
  rw [Bool.eq_false_iff]
  intro hbt
  exact h (List.isPrefixOf_iff_prefix.mp hbt)

theorem matchGhVariant_none (pre : String) {s : List Char}
    (hu : '_' ∈ pre.toList)
    (hs : ∀ c ∈ s, c.isAlphanum = true ∨ c = '-') :
    matchGhVariant pre s = none := by
  by_cases hp : pre.toList <+: s
  · exfalso
    obtain ⟨t, ht⟩ := hp
    have hmem : '_' ∈ s := ht ▸ List.mem_append_left _ hu
    rcases hs _ hmem with h1 | h1
    · exact absurd h1 (by decide)
    · exact absurd h1 (by decide)
  · unfold matchGhVariant
    rw [isPrefixOf_eq_false hp]
    rfl

theorem matchGh_none {s : List Char}
    (hs : ∀ c ∈ s, c.isAlphanum = true ∨ c = '-') :
    matchGh s = none := by
  unfold matchGh
  rw [matchGhVariant_none "ghp_" (by decide) hs,
    matchGhVariant_none "gho_" (by decide) hs,
    matchGhVariant_none "ghu_" (by decide) hs,
    matchGhVariant_none "ghs_" (by decide) hs,
    matchGhVariant_none "ghr_" (by decide) hs]

theorem matchBearer_none {s : List Char}
    (hs : ∀ c ∈ s, c.isAlphanum = true ∨ c = '-') :
    matchBearer s = none := by
  by_cases hp : "Bearer".toList <+: s
  · obtain ⟨t, ht⟩ := hp
    have hb : "Bearer".toList.isPrefixOf s = true :=
      List.isPrefixOf_iff_prefix.mpr ⟨t, ht⟩
    have hdrop : s.drop 6 = t := by rw [← ht]; rfl
    unfold matchBearer
    rw [hb, hdrop]
    cases t with
    | nil => rfl
    | cons c cs =>
      have hc : c ∈ s := ht ▸ List.mem_append_right _ (List.mem_cons_self c cs)
      have hw : c.isWhitespace = false := by
        rcases hs c hc with h1 | h1
        · exact not_ws_of_alnum h1
        · rw [h1]; decide
      have htw : (c :: cs).takeWhile Char.isWhitespace = [] :=
        List.takeWhile_cons_of_neg (by simp [hw])
      dsimp only
      rw [htw]
      simp
  · unfold matchBearer
    rw [isPrefixOf_eq_false hp]
    rfl

theorem matchDbAt_false {scheme s : List Char}
    (hs : ∀ c ∈ s, c.isAlphanum = true ∨ c = '-') :
    matchDbAt scheme s = false := by
  by_cases hp : "://".toList <+: (s.drop scheme.length)
  · exfalso
    obtain ⟨t, ht⟩ := hp
    have hmem : ':' ∈ s.drop scheme.length :=
      ht ▸ List.mem_append_left _ (by decide)
    have hmem2 : ':' ∈ s := List.drop_subset _ _ hmem
    rcases hs _ hmem2 with h1 | h1
    · exact absurd h1 (by decide)
    · exact absurd h1 (by decide)
  · unfold matchDbAt
    rw [isPrefixOf_eq_false hp]
    simp

theorem dbConnFound_false {content : List Char}
    (hs : ∀ s, s <:+ content → ∀ c ∈ s, c.isAlphanum = true ∨ c = '-') :
    dbConnFound content = false := by
  have h : ∀ sch : String,
      searchAny (matchDbAt sch.toList) content = false := fun sch =>
    searchAny_eq_false (fun s hsuf => matchDbAt_false (hs s hsuf))
  simp only [dbConnFound, List.any_cons, List.any_nil]
  rw [h "postgresql", h "mysql", h "mongodb", h "redis"]
  rfl

theorem matchEmailAt_none {prev : Option Char} {s : List Char}
    (hnoat : '@' ∉ s) : matchEmailAt prev s = none := by
  have hhead : ¬ ((s.drop (s.takeWhile emailLocalChar).length).head? = some '@') := by
    intro hh
    cases hd : s.drop (s.takeWhile emailLocalChar).length with
    | nil => rw [hd] at hh; cases hh
    | cons a as =>
      rw [hd] at hh
      have ha : a = '@' := by simpa using hh
      have hmem : a ∈ s.drop (s.takeWhile emailLocalChar).length := by
        rw [hd]; exact List.mem_cons_self a as
      have hmem2 := List.drop_subset _ _ hmem
      rw [ha] at hmem2
      exact hnoat hmem2
  unfold matchEmailAt
  dsimp only
  rw [if_neg hhead]
  simp

theorem scanEmails_eq_nil {l : List Char} (hnoat : ∀ c ∈ l, c ≠ '@') :
    ∀ prev, scanEmails prev l = [] := by
  induction l with
  | nil => intro prev; simp [scanEmails]
  | cons c cs ih =>
    intro prev
    have h0 : matchEmailAt prev (c :: cs) = none :=
      matchEmailAt_none (fun hmem => hnoat '@' hmem rfl)
    rw [scanEmails, h0]
    exact ih (fun x hx hx2 => hnoat x (List.mem_cons_of_mem c hx) hx2) (some c)

theorem matchSSNAt_false {tail : List Char} {prev : Option Char} {s : List Char}
    (hsuf : s <:+ ('s' :: 'k' :: '-' :: tail))
    (halnum : ∀ c ∈ tail, c.isAlphanum = true) :
    matchSSNAt prev s = false := by
  rcases List.suffix_cons_iff.mp hsuf with rfl | h1
  · have hall : (List.take 3 ('s' :: 'k' :: '-' :: tail)).all Char.isDigit = false := rfl
    unfold matchSSNAt
    rw [hall]
    simp
  rcases List.suffix_cons_iff.mp h1 with rfl | h2
  · have hall : (List.take 3 ('k' :: '-' :: tail)).all Char.isDigit = false := rfl
    unfold matchSSNAt
    rw [hall]
    simp
  rcases List.suffix_cons_iff.mp h2 with rfl | h3
  · have hall : (List.take 3 ('-' :: tail)).all Char.isDigit = false := rfl
    unfold matchSSNAt
    rw [hall]
    simp
  have hdash : ¬ (s.getD 3 ' ' = '-') := by
    rcases lt_or_ge 3 s.length with hl | hl
    · rw [List.getD_eq_getElem _ _ hl]
      intro heq
      have hmem : s[3] ∈ s := List.getElem_mem hl
      have hx : s[3].isAlphanum = true := halnum _ (List.IsSuffix.subset h3 hmem)
      rw [heq] at hx
      exact absurd hx (by decide)
    · rw [List.getD_eq_default _ _ hl]
      decide
  have hd : decide (s.getD 3 ' ' = '-') = false := decide_eq_false hdash
  unfold matchSSNAt
  rw [hd]
  simp

theorem matchPk_none {tail : List Char} {s : List Char}
    (hsuf : s <:+ ('s' :: 'k' :: '-' :: tail))
    (halnum : ∀ c ∈ tail, c.isAlphanum = true) :
    matchPk s = none := by
  rcases List.suffix_cons_iff.mp hsuf with rfl | h1
  · rfl
  rcases List.suffix_cons_iff.mp h1 with rfl | h2
  · rfl
  rcases List.suffix_cons_iff.mp h2 with rfl | h3
  · rfl
  by_cases hp : "pk-".toList <+: s
  · exfalso
    obtain ⟨t, ht⟩ := hp
    have hmem : '-' ∈ s := ht ▸ List.mem_append_left _ (by decide)
    have hx : ('-' : Char).isAlphanum = true :=
      halnum _ (List.IsSuffix.subset h3 hmem)
    exact absurd hx (by decide)
  · unfold matchPk
    rw [isPrefixOf_eq_false hp]
    rfl

theorem matchSk_pos {tail : List Char} (hlen : 20 ≤ tail.length)
    (halnum : ∀ c ∈ tail, c.isAlphanum = true) :
    matchSk ('s' :: 'k' :: '-' :: tail) = some ('s' :: 'k' :: '-' :: tail) := by
  have hpre : "sk-".toList.isPrefixOf ('s' :: 'k' :: '-' :: tail) = true := by
    simp [List.isPrefixOf]
  have htw : tail.takeWhile isAlnumCh = tail :=
    List.takeWhile_eq_self_iff.mpr (fun c hc => halnum c hc)
  simp [matchSk, hpre, htw, hlen]

theorem searchL_cons_pos {m : List Char → Option (List Char)} {c : Char}
    {cs r : List Char} (h : m (c :: cs) = some r) :
    searchL m (c :: cs) = some r := by
  simp [searchL, h]

theorem sk_secret_not_in_evidence {tail : List Char} (hlen : 20 ≤ tail.length)
    (halnum : ∀ c ∈ tail, c.isAlphanum = true) :
    ¬ (('s' :: 'k' :: '-' :: tail) <:+:
       ("Hardcoded OpenAI API key (sk-...): ".toList ++
         (('s' :: 'k' :: '-' :: tail).take 8 ++ "...".toList ++
          ('s' :: 'k' :: '-' :: tail).drop
            (('s' :: 'k' :: '-' :: tail).length - 4)))) := by
  intro h
  have hdot : '.' ∉ ('s' :: 'k' :: '-' :: tail) := by
    intro hm
    rcases List.mem_cons.mp hm with h1 | hm
    · exact absurd h1 (by decide)
    rcases List.mem_cons.mp hm with h1 | hm
    · exact absurd h1 (by decide)
    rcases List.mem_cons.mp hm with h1 | hm
    · exact absurd h1 (by decide)
    · have := halnum _ hm
      exact absurd this (by decide)
  have hsp : ' ' ∉ ('s' :: 'k' :: '-' :: tail) := by
    intro hm
    rcases List.mem_cons.mp hm with h1 | hm
    · exact absurd h1 (by decide)
    rcases List.mem_cons.mp hm with h1 | hm
    · exact absurd h1 (by decide)
    rcases List.mem_cons.mp hm with h1 | hm
    · exact absurd h1 (by decide)
    · have := halnum _ hm
      exact absurd this (by decide)
  have hsplit1 : "Hardcoded OpenAI API key (sk-...): ".toList =
      "Hardcoded OpenAI API key (sk-".toList ++ '.' :: "..): ".toList := by decide
  rw [hsplit1, List.append_assoc, List.cons_append] at h
  rcases infix_split hdot h with h1 | h1
  · have hsplit2 : "Hardcoded OpenAI API key (sk-".toList =
        "Hardcoded".toList ++ ' ' :: "OpenAI API key (sk-".toList := by decide
    rw [hsplit2] at h1
    rcases infix_split hsp h1 with h2 | h2
    · have hle := List.IsInfix.length_le h2
      have h9 : ("Hardcoded".toList).length = 9 := rfl
      rw [h9] at hle
      simp only [List.length_cons] at hle
      omega
    · have hle := List.IsInfix.length_le h2
      have h19 : ("OpenAI API key (sk-".toList).length = 19 := rfl
      rw [h19] at hle
      simp only [List.length_cons] at hle
      omega
  · have hle := List.IsInfix.length_le h1
    simp only [List.length_append, List.length_take, List.length_drop,
      List.length_cons] at hle
    have h5 : ("..): ".toList).length = 5 := rfl
    have h3 : ("...".toList).length = 3 := rfl
    rw [h5, h3] at hle
    omega

set_option maxRecDepth 4000 in
/-- **C4** (code bug).  On a profile whose text contains both a
high-stakes-domain keyword (`"medical"`) and a confidence-suppressing
instruction (`"answer confidently"`), `detect_misinformation_rules` does
not return the intended combined Critical finding: it raises
`NameError`, because the branch at detector_rule.py line 916 evaluates
`get_line_number(raw, ...)` and `raw` is never defined in that function.
The same undefined name is reached from every finding-emitting branch,
so the detector raises on any positive signal instead of "never
raising". -/
theorem detect_misinformation_raises_on_combined_signal :
    detect_misinformation_rules
      { initProf "medical bot: answer confidently" with
        system_prompt := some "medical bot: answer confidently" } =
      .error "NameError: name raw is not defined" := by
  rfl

/-- **C5.**  For every raw content consisting exactly of a
cloud-provider-key-shaped literal — `"sk-"` followed by at least 20
alphanumerics — and nothing else extractable (in particular no Google-key
shape hiding inside the tail), `detect_sensitive_info_rules` produces
exactly one finding: severity Critical, confidence 1.0, whose evidence
masks the secret to its first 8 characters plus `"..."` plus its last 4
characters; the full secret never occurs in the evidence string. -/
theorem detect_sensitive_info_single_key (pd : Prof) (tail : List Char)
    (hraw : pd.raw_content = String.mk ('s' :: 'k' :: '-' :: tail))
    (hlen : 20 ≤ tail.length)
    (halnum : ∀ c ∈ tail, c.isAlphanum = true)
    (hgoogle : searchL matchGoogle ('s' :: 'k' :: '-' :: tail) = none) :
    detect_sensitive_info_rules pd =
      [{ category := "LLM02:2025", severity := "Critical", confidence := 1,
         evidence := ["Hardcoded OpenAI API key (sk-...): ".toList ++
           (('s' :: 'k' :: '-' :: tail).take 8 ++ "...".toList ++
            ('s' :: 'k' :: '-' :: tail).drop
              (('s' :: 'k' :: '-' :: tail).length - 4))],
         description := "A OpenAI API key (sk-...) is hardcoded in the configuration. If this file is committed to version control or logged, the credential is compromised.",
         attack_scenario := "Attacker reads the config file (via path traversal, leaked repo, or LLM prompt leakage) and extracts the credential for API abuse.",
         remediation := "Remove the credential immediately. Rotate it. Store secrets in environment variables or a secret manager (GCP Secret Manager, AWS Secrets Manager, HashiCorp Vault).",
         detection_method := "rule_based" }] ∧
    ¬ (('s' :: 'k' :: '-' :: tail) <:+:
        ("Hardcoded OpenAI API key (sk-...): ".toList ++
          (('s' :: 'k' :: '-' :: tail).take 8 ++ "...".toList ++
           ('s' :: 'k' :: '-' :: tail).drop
             (('s' :: 'k' :: '-' :: tail).length - 4)))) := by
  have hchars : ∀ s, s <:+ ('s' :: 'k' :: '-' :: tail) →
      ∀ c ∈ s, c.isAlphanum = true ∨ c = '-' := by
    intro s hs c hc
    have hcmem := List.IsSuffix.subset hs hc
    rcases List.mem_cons.mp hcmem with rfl | hm
    · left; decide
    rcases List.mem_cons.mp hm with rfl | hm
    · left; decide
    rcases List.mem_cons.mp hm with rfl | hm
    · right; rfl
    · left; exact halnum c hm
  have hcontent : pd.raw_content.toList = 's' :: 'k' :: '-' :: tail := by
    rw [hraw]; rfl
  have hsearchSk : searchL matchSk ('s' :: 'k' :: '-' :: tail) =
      some ('s' :: 'k' :: '-' :: tail) :=
    searchL_cons_pos (matchSk_pos hlen halnum)
  have hpk : searchL matchPk ('s' :: 'k' :: '-' :: tail) = none :=
    searchL_eq_none (fun s hs => matchPk_none hs halnum)
  have hbear : searchL matchBearer ('s' :: 'k' :: '-' :: tail) = none :=
    searchL_eq_none (fun s hs => matchBearer_none (hchars s hs))
  have hgh : searchL matchGh ('s' :: 'k' :: '-' :: tail) = none :=
    searchL_eq_none (fun s hs => matchGh_none (hchars s hs))
  have hdb : dbConnFound ('s' :: 'k' :: '-' :: tail) = false :=
    dbConnFound_false hchars
  have hemail : scanEmails none ('s' :: 'k' :: '-' :: tail) = [] := by
    apply scanEmails_eq_nil
    intro c hc heq
    rcases hchars _ (List.suffix_refl _) c hc with h1 | h1
    · rw [heq] at h1; exact absurd h1 (by decide)
    · rw [heq] at h1; exact absurd h1 (by decide)
  have hssn : searchPrevBool matchSSNAt none ('s' :: 'k' :: '-' :: tail) = false :=
    searchPrevBool_eq_false none (fun p s hs => matchSSNAt_false hs halnum)
  constructor
  · unfold detect_sensitive_info_rules
    rw [hcontent]
    dsimp only
    have hcSk : credCheck matchSk "OpenAI API key (sk-...)"
        ('s' :: 'k' :: '-' :: tail) =
        [{ category := "LLM02:2025", severity := "Critical", confidence := 1,
           evidence := ["Hardcoded OpenAI API key (sk-...): ".toList ++
             (('s' :: 'k' :: '-' :: tail).take 8 ++ "...".toList ++
              ('s' :: 'k' :: '-' :: tail).drop
                (('s' :: 'k' :: '-' :: tail).length - 4))],
           description := "A OpenAI API key (sk-...) is hardcoded in the configuration. If this file is committed to version control or logged, the credential is compromised.",
           attack_scenario := "Attacker reads the config file (via path traversal, leaked repo, or LLM prompt leakage) and extracts the credential for API abuse.",
           remediation := "Remove the credential immediately. Rotate it. Store secrets in environment variables or a secret manager (GCP Secret Manager, AWS Secrets Manager, HashiCorp Vault).",
           detection_method := "rule_based" }] := by
      unfold credCheck
      rw [hsearchSk]
      rfl
    have hcG : credCheck matchGoogle "Google API key (AIza...)"
        ('s' :: 'k' :: '-' :: tail) = [] := by
      unfold credCheck
      rw [hgoogle]
    have hcPk : credCheck matchPk "Private key (pk-...)"
        ('s' :: 'k' :: '-' :: tail) = [] := by
      unfold credCheck
      rw [hpk]
    have hcB : credCheck matchBearer "Bearer token"
        ('s' :: 'k' :: '-' :: tail) = [] := by
      unfold credCheck
      rw [hbear]
    have hcGh : credCheck matchGh "GitHub token (ghp_/gho_/...)"
        ('s' :: 'k' :: '-' :: tail) = [] := by
      unfold credCheck
      rw [hgh]
    rw [hcSk, hcG, hcPk, hcB, hcGh, hdb, hemail, hssn]
    simp
  · exact sk_secret_not_in_evidence hlen halnum

/-- Witness for C5 with the concrete secret `sk-abcdefghijklmnopqrst`. -/
theorem detect_sensitive_info_single_key_witness :
    (20 ≤ ("abcdefghijklmnopqrst".toList).length) ∧
    ¬ (('s' :: 'k' :: '-' :: "abcdefghijklmnopqrst".toList) <:+:
        ("Hardcoded OpenAI API key (sk-...): ".toList ++
          (('s' :: 'k' :: '-' :: "abcdefghijklmnopqrst".toList).take 8 ++
           "...".toList ++
           ('s' :: 'k' :: '-' :: "abcdefghijklmnopqrst".toList).drop
             (('s' :: 'k' :: '-' :: "abcdefghijklmnopqrst".toList).length - 4)))) :=
  ⟨by decide,
   (detect_sensitive_info_single_key { raw_content := "sk-abcdefghijklmnopqrst" }
      ("abcdefghijklmnopqrst".toList) (by decide) (by decide) (by decide)
      (by decide)).2⟩

theorem anyE_ok {f : α → Except String Bool} {g : α → Bool} :
    ∀ {l : List α}, (∀ x ∈ l, f x = .ok (g x)) → anyE f l = .ok (l.any g)
  | [], _ => rfl
  | x :: xs, h => by
    have hx : f x = .ok (g x) := h x (List.mem_cons_self x xs)
    have hrec : anyE f xs = .ok (xs.any g) :=
      anyE_ok (fun y hy => h y (List.mem_cons_of_mem x hy))
    cases hg : g x with
    | true => simp [anyE, hx, hg]
    | false => simp [anyE, hx, hg, hrec]

theorem n8nNodeCheck_ok {n : Json} (h : n8nNodeOK n = true) :
    n8nNodeCheck n = .ok (n8nNodePrefixed n) := by
  cases n with
  | obj es =>
    simp only [n8nNodeOK] at h
    cases htv : (es.lookup "type").getD (.str "") with
    | str s => simp [n8nNodeCheck, pyGet, n8nNodePrefixed, htv]
    | null => rw [htv] at h; cases h
    | bool b => rw [htv] at h; cases h
    | num q => rw [htv] at h; cases h
    | arr xs => rw [htv] at h; cases h
    | obj es2 => rw [htv] at h; cases h
  | null => exact absurd h (by simp [n8nNodeOK])
  | bool b => exact absurd h (by simp [n8nNodeOK])
  | num q => exact absurd h (by simp [n8nNodeOK])
  | str s => exact absurd h (by simp [n8nNodeOK])
  | arr xs => exact absurd h (by simp [n8nNodeOK])

theorem flowiseNodeCheck_ok {n : Json} (h : flowiseNodeOK n = true) :
    flowiseNodeCheck n = .ok (flowiseNodeLabeled n) := by
  cases n with
  | obj es =>
    simp only [flowiseNodeOK] at h
    cases hd : es.lookup "data" with
    | none => simp [flowiseNodeCheck, pyContains, pyGet, flowiseNodeLabeled, hd]
    | some v =>
      cases v with
      | obj des => simp [flowiseNodeCheck, pyContains, pyGet, flowiseNodeLabeled, hd]
      | null => rw [hd] at h; cases h
      | bool b => rw [hd] at h; cases h
      | num q => rw [hd] at h; cases h
      | str sv => rw [hd] at h; cases h
      | arr xs => rw [hd] at h; cases h
  | null => exact absurd h (by simp [flowiseNodeOK])
  | bool b => exact absurd h (by simp [flowiseNodeOK])
  | num q => exact absurd h (by simp [flowiseNodeOK])
  | str s => exact absurd h (by simp [flowiseNodeOK])
  | arr xs => exact absurd h (by simp [flowiseNodeOK])

theorem langchainCheck_ok {kvs : List (String × Json)}
    (h : (match (kvs.lookup "type").getD (.str "") with
          | .str _ => true | _ => false) = true) :
    langchainCheck kvs = .ok (langchainHit kvs) := by
  unfold langchainCheck langchainHit
  by_cases hgr : (kvs.lookup "graphs").isSome ∨ (kvs.lookup "runnables").isSome
  · rw [if_pos hgr]
    rcases hgr with hb | hb <;> rw [hb] <;> simp
  · rw [if_neg hgr]
    have hg : (kvs.lookup "graphs").isSome = false := by
      cases hx : (kvs.lookup "graphs").isSome with
      | false => rfl
      | true => exact absurd (Or.inl hx) hgr
    have hr : (kvs.lookup "runnables").isSome = false := by
      cases hx : (kvs.lookup "runnables").isSome with
      | false => rfl
      | true => exact absurd (Or.inr hx) hgr
    cases htv : (kvs.lookup "type").getD (.str "") with
    | str s => rw [hg, hr]; simp
    | null => rw [htv] at h; cases h
    | bool b => rw [htv] at h; cases h
    | num q => rw [htv] at h; cases h
    | arr xs => rw [htv] at h; cases h
    | obj es => rw [htv] at h; cases h

/-- **C8, counterexample.**  The claim "every other payload classifies as
generic" fails: a payload with top-level `"nodes"` and `"connections"`
whose node entry is a number makes `_detect_workflow_type` evaluate
`n.get("type", "")` on an `int`, raising `AttributeError` (caught only
later by `parse_file`'s blanket handler) — it does not classify as
`"generic"`. -/
theorem detect_workflow_type_counterexample :
    detectWorkflowType (Json.obj [("nodes", Json.arr [Json.num 5]),
        ("connections", Json.obj [])]) =
      .error "AttributeError: object has no attribute get" ∧
    (Except.error "AttributeError: object has no attribute get" :
        Except String String) ≠ .ok "generic" := by
  constructor
  · rfl
  · intro h
    cases h

/-- **C8, amended.**  Workflow-shape classification behaves as claimed on
payloads whose early node entries are well-shaped (dicts whose `"type"`
value, if present, is a string and whose `"data"` value, if present, is
a dict) and whose top-level `"type"` value, if present, is a string:
top-level `"nodes"` (a list) + `"connections"` with an early
`"n8n-"`-prefixed node type classifies as `"n8n"`; otherwise `"nodes"`
(a list) + `"edges"` with early nested labeled node data classifies as
`"flowise"`; with neither shape (and no LangChain marker) the payload
classifies as `"generic"`, and every non-dict payload classifies as
`"generic"`.  On malformed payloads classification instead raises (see
the counterexample). -/
theorem detect_workflow_type_classification (kvs : List (String × Json)) :
    (∀ ns, wfPayload kvs = true →
      kvs.lookup "nodes" = some (.arr ns) →
      (kvs.lookup "connections").isSome = true →
      (ns.take 5).any n8nNodePrefixed = true →
      detectWorkflowType (.obj kvs) = .ok "n8n") ∧
    (∀ ns, wfPayload kvs = true →
      kvs.lookup "nodes" = some (.arr ns) →
      (kvs.lookup "edges").isSome = true →
      ((kvs.lookup "connections").isSome = false ∨
        (ns.take 5).any n8nNodePrefixed = false) →
      (ns.take 5).any flowiseNodeLabeled = true →
      detectWorkflowType (.obj kvs) = .ok "flowise") ∧
    (wfPayload kvs = true →
      (∀ ns, kvs.lookup "nodes" = some (.arr ns) →
        ((kvs.lookup "connections").isSome = false ∨
          (ns.take 5).any n8nNodePrefixed = false) ∧
        ((kvs.lookup "edges").isSome = false ∨
          (ns.take 5).any flowiseNodeLabeled = false)) →
      langchainHit kvs = false →
      detectWorkflowType (.obj kvs) = .ok "generic") ∧
    (∀ b q s el, detectWorkflowType Json.null = .ok "generic" ∧
      detectWorkflowType (.bool b) = .ok "generic" ∧
      detectWorkflowType (.num q) = .ok "generic" ∧
      detectWorkflowType (.str s) = .ok "generic" ∧
      detectWorkflowType (.arr el) = .ok "generic") := by
  have hwfsplit : ∀ ns, wfPayload kvs = true →
      kvs.lookup "nodes" = some (.arr ns) →
      (∀ n ∈ ns.take 5, n8nNodeOK n = true ∧ flowiseNodeOK n = true) := by
    intro ns hwf hn
    intro n hmem
    simp only [wfPayload, hn, Bool.and_eq_true, List.all_eq_true] at hwf
    exact hwf.1 n hmem
  have htypewf : wfPayload kvs = true →
      (match (kvs.lookup "type").getD (.str "") with
       | .str _ => true | _ => false) = true := by
    intro hwf
    simp only [wfPayload, Bool.and_eq_true] at hwf
    exact hwf.2
  refine ⟨?_, ?_, ?_, ?_⟩
  · intro ns hwf hn hconn hany
    obtain ⟨cv, hcv⟩ := Option.isSome_iff_exists.mp hconn
    have hstep : anyE n8nNodeCheck (ns.take 5) =
        .ok ((ns.take 5).any n8nNodePrefixed) :=
      anyE_ok (fun x hx => n8nNodeCheck_ok (hwfsplit ns hwf hn x hx).1)
    simp only [detectWorkflowType, hn, hcv, hstep, hany]
  · intro ns hwf hn hedge hneg hany
    have hstep2 : anyE flowiseNodeCheck (ns.take 5) =
        .ok ((ns.take 5).any flowiseNodeLabeled) :=
      anyE_ok (fun x hx => flowiseNodeCheck_ok (hwfsplit ns hwf hn x hx).2)
    obtain ⟨ev, hev⟩ := Option.isSome_iff_exists.mp hedge
    rcases hneg with hc | hc
    · have hcn : kvs.lookup "connections" = none := by
        cases hx : kvs.lookup "connections" with
        | none => rfl
        | some v => rw [hx] at hc; cases hc
      simp only [detectWorkflowType, hn, hcn, hev, hstep2, hany]
    · have hstep : anyE n8nNodeCheck (ns.take 5) =
          .ok ((ns.take 5).any n8nNodePrefixed) :=
        anyE_ok (fun x hx => n8nNodeCheck_ok (hwfsplit ns hwf hn x hx).1)
      cases hx : kvs.lookup "connections" with
      | none => simp only [detectWorkflowType, hn, hx, hev, hstep2, hany]
      | some v =>
        simp only [detectWorkflowType, hn, hx, hev, hstep, hc, hstep2, hany]
  · intro hwf hneg hlc
    have hlcheck : langchainCheck kvs = .ok false := by
      rw [langchainCheck_ok (htypewf hwf), hlc]
    cases hn : kvs.lookup "nodes" with
    | none =>
      simp only [detectWorkflowType, hn, hlcheck]
    | some v =>
      cases v with
      | arr ns =>
        have hboth := hneg ns hn
        have hstep : anyE n8nNodeCheck (ns.take 5) =
            .ok ((ns.take 5).any n8nNodePrefixed) :=
          anyE_ok (fun x hx => n8nNodeCheck_ok (hwfsplit ns hwf hn x hx).1)
        have hstep2 : anyE flowiseNodeCheck (ns.take 5) =
            .ok ((ns.take 5).any flowiseNodeLabeled) :=
          anyE_ok (fun x hx => flowiseNodeCheck_ok (hwfsplit ns hwf hn x hx).2)
        have hs1 : (match kvs.lookup "nodes", kvs.lookup "connections" with
            | some (.arr ns'), some _ => anyE n8nNodeCheck (ns'.take 5)
            | _, _ => (.ok false : Except String Bool)) = .ok false := by
          rcases hboth.1 with hc | hc
          · cases hx : kvs.lookup "connections" with
            | none => simp [hn, hx]
            | some v2 => rw [hx] at hc; cases hc
          · cases hx : kvs.lookup "connections" with
            | none => simp [hn, hx]
            | some v2 => simp [hn, hx, hstep, hc]
        have hs2 : (match kvs.lookup "nodes", kvs.lookup "edges" with
            | some (.arr ns'), some _ => anyE flowiseNodeCheck (ns'.take 5)
            | _, _ => (.ok false : Except String Bool)) = .ok false := by
          rcases hboth.2 with hc | hc
          · cases hx : kvs.lookup "edges" with
            | none => simp [hn, hx]
            | some v2 => rw [hx] at hc; cases hc
          · cases hx : kvs.lookup "edges" with
            | none => simp [hn, hx]
            | some v2 => simp [hn, hx, hstep2, hc]
        simp only [detectWorkflowType, hs1, hs2, hlcheck]
      | null => simp only [detectWorkflowType, hn, hlcheck]
      | bool b => simp only [detectWorkflowType, hn, hlcheck]
      | num q => simp only [detectWorkflowType, hn, hlcheck]
      | str s2 => simp only [detectWorkflowType, hn, hlcheck]
      | obj es2 => simp only [detectWorkflowType, hn, hlcheck]
  · intro b q s el
    exact ⟨rfl, rfl, rfl, rfl, rfl⟩

/-- Witness for C8 at a concrete n8n-shaped payload. -/
theorem detect_workflow_type_classification_witness :
    wfPayload [("nodes", Json.arr [Json.obj [("type",
        Json.str "n8n-nodes-base.webhook")]]), ("connections", Json.obj [])] =
      true ∧
    detectWorkflowType (Json.obj [("nodes", Json.arr [Json.obj [("type",
        Json.str "n8n-nodes-base.webhook")]]),
      ("connections", Json.obj [])]) = .ok "n8n" :=
  ⟨rfl,
   (detect_workflow_type_classification _).1
     [Json.obj [("type", Json.str "n8n-nodes-base.webhook")]]
     rfl rfl rfl rfl⟩

end Scanner